import Mathlib

/-!
Verification development for the SuperRelay trusted application.

This file gives a shallow embedding of src/ta/super_relay_ta/super_relay_ta.c
together with the constants and structures declared in
src/ta/super_relay_ta/include/super_relay_ta.h, and proves properties of the
embedded commands.

Modelling conventions:
- Byte buffers are lists of natural numbers (one entry per byte).
- Machine counters are naturals, reduced modulo 2 ^ 32 where the C type is
  uint32_t and the increment can actually wrap.  The key counter is guarded
  by the capacity check (it never exceeds 16), so its increment cannot wrap.
- The GlobalPlatform primitives used by the code (system time, ECDSA key
  generation, SHA-256 digest, ECDSA signing) are external collaborators.
  They are modelled as per-call oracle values: an Option that is none when
  the primitive call fails, together with the error code a failing call
  returns, and the sampled clock value.
- The global variables of the C file become one explicit state record that
  every command takes and returns.  The arrays g_keys and g_key_storage are
  modelled by their live prefixes (indices below g_key_count); cells at or
  beyond g_key_count are never read by the C code, so the scratch writes the
  code performs there before a failed insertion are dead stores.
-/

namespace SuperRelay

/-! GlobalPlatform result codes returned by the implementation. -/

def TEE_SUCCESS : Nat := 0x00000000

def TEE_ERROR_ACCESS_DENIED : Nat := 0xFFFF0001

def TEE_ERROR_BAD_PARAMETERS : Nat := 0xFFFF0006

def TEE_ERROR_NOT_IMPLEMENTED : Nat := 0xFFFF0009

def TEE_ERROR_NOT_SUPPORTED : Nat := 0xFFFF000A

def TEE_ERROR_SHORT_BUFFER : Nat := 0xFFFF0010

def TEE_ERROR_STORAGE_NO_SPACE : Nat := 0xFFFF3041

/-! Error codes and constants from include/super_relay_ta.h. -/

def SR_SUCCESS : Nat := 0x00000000

def SR_ERROR_KEY_NOT_FOUND : Nat := 0x00000004

def SR_ERROR_KEY_ALREADY_EXISTS : Nat := 0x00000005

def SR_MAX_KEY_ID_SIZE : Nat := 64

def SR_MAX_KEYS : Nat := 16

def SR_SECP256K1_PUBLIC_KEY_SIZE : Nat := 64

def SR_SECP256K1_PRIVATE_KEY_SIZE : Nat := 32

def SR_SECP256K1_SIGNATURE_SIZE : Nat := 64

def SR_MESSAGE_HASH_SIZE : Nat := 32

def SR_ETHEREUM_ADDRESS_SIZE : Nat := 20

def SR_KEY_TYPE_ECDSA_SECP256K1 : Nat := 0

def SR_KEY_TYPE_ED25519 : Nat := 1

def SR_KEY_TYPE_MAX : Nat := 2

def SR_KEY_STATUS_ACTIVE : Nat := 0

def UINT32_MOD : Nat := 2 ^ 32

/-! Parameter-type words, encoded exactly as the TEE_PARAM_TYPES macro packs
four 4-bit type tags into one 32-bit word. -/

def TEE_PARAM_TYPE_NONE : Nat := 0

def TEE_PARAM_TYPE_VALUE_INPUT : Nat := 1

def TEE_PARAM_TYPE_MEMREF_INPUT : Nat := 5

def TEE_PARAM_TYPE_MEMREF_OUTPUT : Nat := 6

def TEE_PARAM_TYPES (t0 t1 t2 t3 : Nat) : Nat :=
  t0 + t1 * 16 + t2 * 256 + t3 * 4096

/-- Structure sr_key_info_t: public metadata of one managed key.  The field
key_id models the full 64-byte char array. -/
structure sr_key_info_t where
  key_id : List Nat
  key_type : Nat
  status : Nat
  created_time : Nat
  last_used_time : Nat
  usage_count : Nat
  ethereum_address : List Nat
deriving DecidableEq

/-- Value of an sr_key_info_t cell after memset to zero. -/
def zeroKeyInfo : sr_key_info_t :=
  { key_id := List.replicate SR_MAX_KEY_ID_SIZE 0
    key_type := 0
    status := 0
    created_time := 0
    last_used_time := 0
    usage_count := 0
    ethereum_address := List.replicate SR_ETHEREUM_ADDRESS_SIZE 0 }

/-- Structure sr_key_entry_t: the internal record holding both the secret and
the public half of one key, plus the public metadata projection. -/
structure sr_key_entry_t where
  key_id : List Nat
  key_type : Nat
  private_key : List Nat
  public_key : List Nat
  private_key_len : Nat
  public_key_len : Nat
  info : sr_key_info_t
deriving DecidableEq

/-- Value of an sr_key_entry_t cell after memset to zero. -/
def zeroKeyEntry : sr_key_entry_t :=
  { key_id := List.replicate SR_MAX_KEY_ID_SIZE 0
    key_type := 0
    private_key := List.replicate SR_SECP256K1_PRIVATE_KEY_SIZE 0
    public_key := List.replicate SR_SECP256K1_PUBLIC_KEY_SIZE 0
    private_key_len := 0
    public_key_len := 0
    info := zeroKeyInfo }

/-- Structure sr_signature_result_t.  The three reserved padding bytes carry
no information and are omitted. -/
structure sr_signature_result_t where
  signature : List Nat
  signature_len : Nat
  recovery_id : Nat
deriving DecidableEq

/-- Value of an sr_signature_result_t after memset to zero. -/
def zeroSignatureResult : sr_signature_result_t :=
  { signature := List.replicate SR_SECP256K1_SIGNATURE_SIZE 0
    signature_len := 0
    recovery_id := 0 }

/-- Structure sr_public_key_result_t.  The reserved padding bytes are
omitted. -/
structure sr_public_key_result_t where
  public_key : List Nat
  public_key_len : Nat
  ethereum_address : List Nat
deriving DecidableEq

/-- Structure sr_key_list_result_t. -/
structure sr_key_list_result_t where
  key_count : Nat
  keys : List sr_key_info_t
deriving DecidableEq

/-- Structure sr_version_info_t. -/
structure sr_version_info_t where
  major : Nat
  minor : Nat
  patch : Nat
  build_info : List Nat
deriving DecidableEq

/-- Structure sr_health_result_t. -/
structure sr_health_result_t where
  status : Nat
  active_sessions : Nat
  total_operations : Nat
  storage_usage : Nat
  uptime : Nat
deriving DecidableEq

/-! Byte sizes of the C result structures, following the x86-64 / AArch64
struct layout rules.  sr_signature_result_t is 64 + 4 + 1 + 3 = 72 bytes.
sr_public_key_result_t is 64 + 4 + 20 + 8 = 96 bytes.  sr_key_info_t is
64 + 4 + 4 + 8 + 8 + 4 + 20 = 112 bytes (the two uint64_t fields land on
8-byte offsets 72 and 80).  sr_key_list_result_t is 4 bytes of count, 4
bytes of padding and 16 * 112 bytes of entries = 1800 bytes.
sr_version_info_t is 12 + 64 = 76 bytes.  sr_health_result_t is 16 + 8 = 24
bytes.  sr_key_entry_t is 64 + 4 + 32 + 64 + 4 + 4 + 4 padding + 112 = 288
bytes. -/

def SIZEOF_SR_SIGNATURE_RESULT : Nat := 72

def SIZEOF_SR_PUBLIC_KEY_RESULT : Nat := 96

def SIZEOF_SR_KEY_INFO : Nat := 112

def SIZEOF_SR_KEY_LIST_RESULT : Nat := 1800

def SIZEOF_SR_VERSION_INFO : Nat := 76

def SIZEOF_SR_HEALTH_RESULT : Nat := 24

def SIZEOF_SR_KEY_ENTRY : Nat := 288

/-! Byte-buffer helpers mirroring memcpy, strncpy and strncmp. -/

/-- Write the bytes of src into dst starting at offset off, leaving the rest
of dst unchanged (the effect of memcpy into the middle of a buffer). -/
def storeBytes (dst : List Nat) (off : Nat) (src : List Nat) : List Nat :=
  dst.take off ++ src ++ dst.drop (off + src.length)

/-- Bytes a strncpy with bound n copies from src before the terminator: the
longest prefix of src that contains no zero byte, cut to at most n bytes.
Running off the end of the modelled window behaves like a terminator. -/
def takeCStr : List Nat → Nat → List Nat
  | _, 0 => []
  | [], _ + 1 => []
  | b :: bs, n + 1 => if b = 0 then [] else b :: takeCStr bs n

/-- Result of strncmp(a, b, n) == 0 in C: walk both buffers in step, stop at
the first difference (not equal), at a common zero byte (equal) or after n
bytes (equal).  Exhausting one modelled window before the other is treated
as a mismatch; all concrete runs in this file stay inside their windows. -/
def strncmpEq : List Nat → List Nat → Nat → Bool
  | _, _, 0 => true
  | a :: xs, b :: ys, n + 1 =>
      if a = b then (if a = 0 then true else strncmpEq xs ys n) else false
  | [], [], _ + 1 => true
  | [], _ :: _, _ + 1 => false
  | _ :: _, [], _ + 1 => false

/-- Contents of the 64-byte key_id array of a new entry: the cell is first
memset to zero, then strncpy copies at most len bytes of the caller buffer,
and the byte at index len is set to zero explicitly. -/
def storedKeyId (mem : List Nat) (len : Nat) : List Nat :=
  let t := takeCStr mem len
  t ++ List.replicate (SR_MAX_KEY_ID_SIZE - t.length) 0

/-! The global state of the trusted application. -/

/-- Global variables of super_relay_ta.c gathered into one record.  The
lists g_keys and g_key_storage hold the live prefixes of the two parallel
arrays; g_key_count mirrors the C counter and equals both lengths in every
reachable state. -/
structure SRState where
  g_keys : List sr_key_info_t
  g_key_storage : List sr_key_entry_t
  g_key_count : Nat
  g_session_count : Nat
  g_operation_count : Nat
  g_start_time : Nat
deriving DecidableEq

/-! Key lookup (function find_key_index of super_relay_ta.c). -/

/-- Scan of the live entries, returning the index of the first entry whose
key_id array strncmp-matches the caller buffer, or -1. -/
def find_in : List sr_key_entry_t → List Nat → Nat → Int
  | [], _, _ => -1
  | e :: rest, mem, i =>
      if strncmpEq e.key_id mem SR_MAX_KEY_ID_SIZE then Int.ofNat i
      else find_in rest mem (i + 1)

/-- Function find_key_index: linear scan over the g_key_count live entries
comparing the stored key_id array against the caller buffer with
strncmp bound SR_MAX_KEY_ID_SIZE.  The declared length of the caller
buffer is not consulted. -/
def find_key_index (s : SRState) (key_id : List Nat) : Int :=
  find_in (s.g_key_storage.take s.g_key_count) key_id 0

/-! Address derivation (function derive_ethereum_address). -/

/-- Function derive_ethereum_address: SHA-256 over the 64-byte uncompressed
public key, then bytes 12..31 of the digest.  The digest primitive is the
first argument; when the primitive call fails the C code zero-fills the
address and returns. -/
def derive_ethereum_address (digest : List Nat → Option (List Nat))
    (public_key : List Nat) : List Nat :=
  match digest public_key with
  | some h => (h.drop 12).take SR_ETHEREUM_ADDRESS_SIZE
  | none => List.replicate SR_ETHEREUM_ADDRESS_SIZE 0

/-! Oracles for the primitive provider. -/

/-- Raw material returned by TEE_GenerateKey and the three
TEE_GetObjectBufferAttribute calls for one generated keypair: the private
scalar and the two public-point coordinates. -/
structure KeypairBits where
  priv : List Nat
  pubX : List Nat
  pubY : List Nat

/-- Per-call oracle for cmd_generate_key: the outcome of the keypair
generation calls (none means one of them failed, keygenErr is the nonzero
code it returned), the digest primitive, and the sampled system time. -/
structure GenOracle where
  keygen : Option KeypairBits
  keygenErr : Nat
  digest : List Nat → Option (List Nat)
  now : Nat

/-- Per-call oracle for cmd_sign_message: the signature bytes produced by
TEE_AsymmetricSignDigest (none means one of the signing calls failed,
sigErr is the nonzero code), and the sampled system time. -/
structure SignOracle where
  sig : Option (List Nat)
  sigErr : Nat
  now : Nat

/-- Function generate_secp256k1_keypair: on provider success the private
scalar is written at offset 0 of the 32-byte private buffer, the public X
and Y coordinates at offsets 0 and 32 of the 64-byte public buffer, the
length fields are set and the Ethereum address is derived.  On provider
failure the code returns the provider error; its partial writes go to the
scratch cell beyond the live prefix and are never read. -/
def generate_secp256k1_keypair (o : GenOracle) (e : sr_key_entry_t) :
    Nat × sr_key_entry_t :=
  match o.keygen with
  | none => (o.keygenErr, e)
  | some kp =>
      let pk := storeBytes e.private_key 0 kp.priv
      let pub := storeBytes (storeBytes e.public_key 0 kp.pubX) 32 kp.pubY
      let e1 : sr_key_entry_t :=
        { e with
            private_key := pk
            private_key_len := kp.priv.length
            public_key := pub
            public_key_len := kp.pubX.length + kp.pubY.length }
      let e2 :=
        { e1 with
            info :=
              { e1.info with
                  ethereum_address := derive_ethereum_address o.digest pub } }
      (TEE_SUCCESS, e2)

/-- Function sign_message_ecdsa: reconstructs the signing key and asks the
provider for a signature over the 32-byte digest.  On success the bytes are
written at offset 0 of the zeroed 64-byte signature buffer, the length is
recorded and the recovery id is the constant 0 placeholder. -/
def sign_message_ecdsa (o : SignOracle) (_key_entry : sr_key_entry_t)
    (_message_hash : List Nat) (result : sr_signature_result_t) :
    Nat × sr_signature_result_t :=
  match o.sig with
  | none => (o.sigErr, result)
  | some sg =>
      (TEE_SUCCESS,
        { signature := storeBytes result.signature 0 sg
          signature_len := sg.length
          recovery_id := 0 })

/-! Command implementations. -/

/-- Parameter shape expected by cmd_generate_key. -/
def GENERATE_KEY_PTYPES : Nat :=
  TEE_PARAM_TYPES TEE_PARAM_TYPE_MEMREF_INPUT TEE_PARAM_TYPE_VALUE_INPUT
    TEE_PARAM_TYPE_MEMREF_OUTPUT TEE_PARAM_TYPE_NONE

/-- Parameter shape expected by cmd_sign_message. -/
def SIGN_MESSAGE_PTYPES : Nat :=
  TEE_PARAM_TYPES TEE_PARAM_TYPE_MEMREF_INPUT TEE_PARAM_TYPE_MEMREF_INPUT
    TEE_PARAM_TYPE_MEMREF_OUTPUT TEE_PARAM_TYPE_NONE

/-- Parameter shape expected by cmd_get_public_key. -/
def GET_PUBLIC_KEY_PTYPES : Nat :=
  TEE_PARAM_TYPES TEE_PARAM_TYPE_MEMREF_INPUT TEE_PARAM_TYPE_MEMREF_OUTPUT
    TEE_PARAM_TYPE_NONE TEE_PARAM_TYPE_NONE

/-- Parameter shape expected by cmd_list_keys, cmd_get_version and
cmd_health_check: one output memref. -/
def SINGLE_OUTPUT_PTYPES : Nat :=
  TEE_PARAM_TYPES TEE_PARAM_TYPE_MEMREF_OUTPUT TEE_PARAM_TYPE_NONE
    TEE_PARAM_TYPE_NONE TEE_PARAM_TYPE_NONE

/-- Caller-controlled inputs of cmd_generate_key: the packed parameter-type
word, the readable bytes at the key_id memref with its declared size, the
key type value, and the size of the output memref. -/
structure GenerateInput where
  paramTypes : Nat
  keyIdMem : List Nat
  keyIdLen : Nat
  keyType : Nat
  outSize : Nat

/-- Caller-controlled inputs of cmd_sign_message. -/
structure SignInput where
  paramTypes : Nat
  keyIdMem : List Nat
  keyIdLen : Nat
  hashMem : List Nat
  hashLen : Nat
  outSize : Nat

/-- Caller-controlled inputs of cmd_get_public_key. -/
structure GetPublicKeyInput where
  paramTypes : Nat
  keyIdMem : List Nat
  keyIdLen : Nat
  outSize : Nat

/-- Caller-controlled inputs of the commands that only take one output
memref. -/
structure OutBufInput where
  paramTypes : Nat
  outSize : Nat

/-- Tail of cmd_generate_key after the keypair-generation switch, taking
the switch result gen: on generation failure return the error, then check
the output buffer size, then copy the address out, append the record to
both arrays and bump the counters. -/
def generate_key_finish (s : SRState) (inp : GenerateInput)
    (gen : Nat × sr_key_entry_t) : Nat × SRState × Option (List Nat) :=
  if gen.1 ≠ TEE_SUCCESS then (gen.1, s, none)
  else if inp.outSize < SR_ETHEREUM_ADDRESS_SIZE then
    (TEE_ERROR_SHORT_BUFFER, s, none)
  else
    (TEE_SUCCESS,
      { s with
          g_keys := s.g_keys ++ [gen.2.info]
          g_key_storage := s.g_key_storage ++ [gen.2]
          g_key_count := s.g_key_count + 1
          g_operation_count := (s.g_operation_count + 1) % UINT32_MOD },
      some (gen.2.info.ethereum_address.take SR_ETHEREUM_ADDRESS_SIZE))

/-- Function cmd_generate_key.  The checks appear in source order:
parameter shape, capacity, key_id length, key type, duplicate id.  Then the
scratch entry is initialized, the keypair is generated according to the
type, and generate_key_finish completes the command.  The return value is
the TEE result code, the new state and the bytes written to the output
memref (none when nothing was written). -/
def cmd_generate_key (s : SRState) (inp : GenerateInput) (o : GenOracle) :
    Nat × SRState × Option (List Nat) :=
  if inp.paramTypes ≠ GENERATE_KEY_PTYPES then (TEE_ERROR_BAD_PARAMETERS, s, none)
  else if SR_MAX_KEYS ≤ s.g_key_count then (TEE_ERROR_STORAGE_NO_SPACE, s, none)
  else if inp.keyIdLen = 0 ∨ SR_MAX_KEY_ID_SIZE ≤ inp.keyIdLen then
    (TEE_ERROR_BAD_PARAMETERS, s, none)
  else if SR_KEY_TYPE_MAX ≤ inp.keyType then (TEE_ERROR_BAD_PARAMETERS, s, none)
  else if 0 ≤ find_key_index s inp.keyIdMem then (SR_ERROR_KEY_ALREADY_EXISTS, s, none)
  else
    let kid := storedKeyId inp.keyIdMem inp.keyIdLen
    let e1 : sr_key_entry_t :=
      { zeroKeyEntry with
          key_id := kid
          key_type := inp.keyType
          info :=
            { zeroKeyInfo with
                key_id := storedKeyId kid (SR_MAX_KEY_ID_SIZE - 1)
                key_type := inp.keyType
                status := SR_KEY_STATUS_ACTIVE
                created_time := o.now
                last_used_time := o.now
                usage_count := 0 } }
    generate_key_finish s inp
      (if inp.keyType = SR_KEY_TYPE_ECDSA_SECP256K1 then
        generate_secp256k1_keypair o e1
      else if inp.keyType = SR_KEY_TYPE_ED25519 then
        (TEE_ERROR_NOT_IMPLEMENTED, e1)
      else (TEE_ERROR_NOT_SUPPORTED, e1))

/-- Metadata record after one successful sign with oracle o: the usage
counter is bumped and the last-used time is set to the sampled time; all
other fields are untouched. -/
def signedInfo (info : sr_key_info_t) (o : SignOracle) : sr_key_info_t :=
  { info with
      last_used_time := o.now
      usage_count := (info.usage_count + 1) % UINT32_MOD }

/-- Tail of cmd_sign_message after the signing switch, taking the matched
slot idx, the matched entry e and the switch result sr: only on success
are last_used_time and usage_count updated on the matching record,
mirrored into g_keys, and the operation counter bumped; the result cell
(zeroed before the switch) is visible to the caller either way. -/
def sign_message_finish (s : SRState) (o : SignOracle) (idx : Nat)
    (e : sr_key_entry_t) (sr : Nat × sr_signature_result_t) :
    Nat × SRState × Option sr_signature_result_t :=
  if sr.1 = TEE_SUCCESS then
    (TEE_SUCCESS,
      { s with
          g_key_storage := s.g_key_storage.set idx { e with info := signedInfo e.info o }
          g_keys := s.g_keys.set idx (signedInfo e.info o)
          g_operation_count := (s.g_operation_count + 1) % UINT32_MOD },
      some sr.2)
  else (sr.1, s, some sr.2)

/-- Part of cmd_sign_message from the status check on, taking the matched
slot idx and entry e: check the key status, zero the result cell, run the
signing switch on the key type and finish. -/
def sign_message_found (s : SRState) (inp : SignInput) (o : SignOracle)
    (idx : Nat) (e : sr_key_entry_t) : Nat × SRState × Option sr_signature_result_t :=
  if e.info.status ≠ SR_KEY_STATUS_ACTIVE then (TEE_ERROR_ACCESS_DENIED, s, none)
  else
    sign_message_finish s o idx e
      (if e.key_type = SR_KEY_TYPE_ECDSA_SECP256K1 then
        sign_message_ecdsa o e (inp.hashMem.take SR_MESSAGE_HASH_SIZE)
          zeroSignatureResult
      else if e.key_type = SR_KEY_TYPE_ED25519 then
        (TEE_ERROR_NOT_IMPLEMENTED, zeroSignatureResult)
      else (TEE_ERROR_NOT_SUPPORTED, zeroSignatureResult))

/-- Function cmd_sign_message.  Checks in source order: parameter shape,
key_id length, hash length, output buffer size, key lookup; then
sign_message_found handles the matched entry. -/
def cmd_sign_message (s : SRState) (inp : SignInput) (o : SignOracle) :
    Nat × SRState × Option sr_signature_result_t :=
  if inp.paramTypes ≠ SIGN_MESSAGE_PTYPES then (TEE_ERROR_BAD_PARAMETERS, s, none)
  else if inp.keyIdLen = 0 ∨ SR_MAX_KEY_ID_SIZE ≤ inp.keyIdLen then
    (TEE_ERROR_BAD_PARAMETERS, s, none)
  else if inp.hashLen ≠ SR_MESSAGE_HASH_SIZE then (TEE_ERROR_BAD_PARAMETERS, s, none)
  else if inp.outSize < SIZEOF_SR_SIGNATURE_RESULT then (TEE_ERROR_SHORT_BUFFER, s, none)
  else
    let ki := find_key_index s inp.keyIdMem
    if ki < 0 then (SR_ERROR_KEY_NOT_FOUND, s, none)
    else sign_message_found s inp o ki.toNat (s.g_key_storage.getD ki.toNat zeroKeyEntry)

/-- Function cmd_get_public_key.  Checks in source order: parameter shape,
key_id length, output buffer size, key lookup.  On success the result cell
is zeroed, public_key_len bytes of the stored public key are copied in, the
length and the 20-byte address are filled and the operation counter is
bumped. -/
def cmd_get_public_key (s : SRState) (inp : GetPublicKeyInput) :
    Nat × SRState × Option sr_public_key_result_t :=
  if inp.paramTypes ≠ GET_PUBLIC_KEY_PTYPES then (TEE_ERROR_BAD_PARAMETERS, s, none)
  else if inp.keyIdLen = 0 ∨ SR_MAX_KEY_ID_SIZE ≤ inp.keyIdLen then
    (TEE_ERROR_BAD_PARAMETERS, s, none)
  else if inp.outSize < SIZEOF_SR_PUBLIC_KEY_RESULT then (TEE_ERROR_SHORT_BUFFER, s, none)
  else
    let ki := find_key_index s inp.keyIdMem
    if ki < 0 then (SR_ERROR_KEY_NOT_FOUND, s, none)
    else
      let e := s.g_key_storage.getD ki.toNat zeroKeyEntry
      (TEE_SUCCESS,
        { s with g_operation_count := (s.g_operation_count + 1) % UINT32_MOD },
        some
          { public_key :=
              storeBytes (List.replicate SR_SECP256K1_PUBLIC_KEY_SIZE 0) 0
                (e.public_key.take e.public_key_len)
            public_key_len := e.public_key_len
            ethereum_address :=
              e.info.ethereum_address.take SR_ETHEREUM_ADDRESS_SIZE })

/-- Function cmd_list_keys.  After the shape and size checks the result is
zeroed, key_count is set and g_key_count entries of g_keys are copied; the
remaining cells of the 16-entry output array keep their memset value. -/
def cmd_list_keys (s : SRState) (inp : OutBufInput) :
    Nat × SRState × Option sr_key_list_result_t :=
  if inp.paramTypes ≠ SINGLE_OUTPUT_PTYPES then (TEE_ERROR_BAD_PARAMETERS, s, none)
  else if inp.outSize < SIZEOF_SR_KEY_LIST_RESULT then (TEE_ERROR_SHORT_BUFFER, s, none)
  else
    (TEE_SUCCESS,
      { s with g_operation_count := (s.g_operation_count + 1) % UINT32_MOD },
      some
        { key_count := s.g_key_count
          keys :=
            (s.g_keys.take s.g_key_count) ++
              List.replicate (SR_MAX_KEYS - s.g_key_count) zeroKeyInfo })

/-- Build-info string written by cmd_get_version. -/
def BUILD_INFO_BYTES : List Nat :=
  ("SuperRelay TA v1.0.0".toUTF8.toList.map (fun b => b.toNat))

/-- Function cmd_get_version: static version record, no state change and no
operation-counter bump. -/
def cmd_get_version (inp : OutBufInput) : Nat × Option sr_version_info_t :=
  if inp.paramTypes ≠ SINGLE_OUTPUT_PTYPES then (TEE_ERROR_BAD_PARAMETERS, none)
  else if inp.outSize < SIZEOF_SR_VERSION_INFO then (TEE_ERROR_SHORT_BUFFER, none)
  else
    (TEE_SUCCESS,
      some
        { major := 1
          minor := 0
          patch := 0
          build_info :=
            BUILD_INFO_BYTES ++
              List.replicate (SR_MAX_KEY_ID_SIZE - BUILD_INFO_BYTES.length) 0 })

/-- Function cmd_health_check: pure read of the counters; uptime is the
sampled time minus the start time.  No state change and no
operation-counter bump. -/
def cmd_health_check (s : SRState) (inp : OutBufInput) (now : Nat) :
    Nat × Option sr_health_result_t :=
  if inp.paramTypes ≠ SINGLE_OUTPUT_PTYPES then (TEE_ERROR_BAD_PARAMETERS, none)
  else if inp.outSize < SIZEOF_SR_HEALTH_RESULT then (TEE_ERROR_SHORT_BUFFER, none)
  else
    (TEE_SUCCESS,
      some
        { status := SR_SUCCESS
          active_sessions := s.g_session_count
          total_operations := s.g_operation_count
          storage_usage := (s.g_key_count * SIZEOF_SR_KEY_ENTRY) % UINT32_MOD
          uptime := now - s.g_start_time })

/-! Entry points. -/

/-- Function TA_CreateEntryPoint: both arrays cleared, all counters zeroed,
start time sampled. -/
def TA_CreateEntryPoint (now : Nat) : SRState :=
  { g_keys := []
    g_key_storage := []
    g_key_count := 0
    g_session_count := 0
    g_operation_count := 0
    g_start_time := now }

/-- Function TA_OpenSessionEntryPoint: increments the session counter. -/
def TA_OpenSessionEntryPoint (s : SRState) : SRState :=
  { s with g_session_count := (s.g_session_count + 1) % UINT32_MOD }

/-- Function TA_CloseSessionEntryPoint: decrements the session counter only
when it is positive. -/
def TA_CloseSessionEntryPoint (s : SRState) : SRState :=
  { s with
      g_session_count :=
        if 0 < s.g_session_count then s.g_session_count - 1
        else s.g_session_count }

/-! Event-level semantics: one inductive of the operations a caller can
drive through TA_InvokeCommandEntryPoint and the session entry points, and
the induced state transition. -/

/-- One caller-visible event: an invoked command with its inputs and the
oracle values its primitive calls return, or a session open or close.  The
import_key and delete_key commands and unknown command ids are rejected by
TA_InvokeCommandEntryPoint without touching state. -/
inductive SREvent where
  | invokeGenerateKey (inp : GenerateInput) (o : GenOracle)
  | invokeSignMessage (inp : SignInput) (o : SignOracle)
  | invokeGetPublicKey (inp : GetPublicKeyInput)
  | invokeListKeys (inp : OutBufInput)
  | invokeGetVersion (inp : OutBufInput)
  | invokeHealthCheck (inp : OutBufInput) (now : Nat)
  | invokeImportKey
  | invokeDeleteKey
  | invokeUnknown (cmd_id : Nat)
  | openSession
  | closeSession

/-- State transition of one event. -/
def stepState (s : SRState) : SREvent → SRState
  | SREvent.invokeGenerateKey inp o => (cmd_generate_key s inp o).2.1
  | SREvent.invokeSignMessage inp o => (cmd_sign_message s inp o).2.1
  | SREvent.invokeGetPublicKey inp => (cmd_get_public_key s inp).2.1
  | SREvent.invokeListKeys inp => (cmd_list_keys s inp).2.1
  | SREvent.invokeGetVersion _ => s
  | SREvent.invokeHealthCheck _ _ => s
  | SREvent.invokeImportKey => s
  | SREvent.invokeDeleteKey => s
  | SREvent.invokeUnknown _ => s
  | SREvent.openSession => TA_OpenSessionEntryPoint s
  | SREvent.closeSession => TA_CloseSessionEntryPoint s

/-- State after a sequence of events. -/
def runEvents (s : SRState) (evs : List SREvent) : SRState :=
  evs.foldl stepState s

/-- Number of open-session events in a sequence. -/
def countOpens : List SREvent → Nat
  | [] => 0
  | SREvent.openSession :: rest => countOpens rest + 1
  | _ :: rest => countOpens rest

/-- Number of close-session events in a sequence. -/
def countCloses : List SREvent → Nat
  | [] => 0
  | SREvent.closeSession :: rest => countCloses rest + 1
  | _ :: rest => countCloses rest

/-- Value of the session counter after a sequence of events, starting from
c: open increments modulo 2 ^ 32, close decrements only when positive, and
no other event touches the counter. -/
def sessionFold (c : Nat) : List SREvent → Nat
  | [] => c
  | SREvent.openSession :: rest => sessionFold ((c + 1) % UINT32_MOD) rest
  | SREvent.closeSession :: rest => sessionFold (if 0 < c then c - 1 else c) rest
  | _ :: rest => sessionFold c rest

/-! Derived notions used to state the properties. -/

/-- Logical identifier of a stored entry: the bytes of its key_id array up
to the terminator, with the strncmp bound. -/
def keyCore (e : sr_key_entry_t) : List Nat :=
  takeCStr e.key_id SR_MAX_KEY_ID_SIZE

/-- Logical identifiers of all live entries, in storage order. -/
def coresOf (s : SRState) : List (List Nat) :=
  s.g_key_storage.map keyCore

/-- Shape every live entry has: the key_id array is a zero-free identifier
of at most 63 bytes followed by a terminator and zero padding. -/
def entryShaped (e : sr_key_entry_t) : Prop :=
  (keyCore e).length ≤ SR_MAX_KEY_ID_SIZE - 1 ∧
    e.key_id =
      keyCore e ++ 0 :: List.replicate (SR_MAX_KEY_ID_SIZE - 1 - (keyCore e).length) 0

instance (e : sr_key_entry_t) : Decidable (entryShaped e) := by
  unfold entryShaped; infer_instance

/-- Well-formedness of the store: the counter equals the number of live
entries, the metadata array is the info projection of the storage array,
and every live entry has the stored key_id shape. -/
def WFStore (s : SRState) : Prop :=
  s.g_key_count = s.g_key_storage.length ∧
    s.g_keys = s.g_key_storage.map sr_key_entry_t.info ∧
    ∀ e ∈ s.g_key_storage, entryShaped e

instance (s : SRState) : Decidable (WFStore s) := by
  unfold WFStore; infer_instance

/-- Identifier bytes suitable for a key_id buffer: no interior terminator
and short enough to pass the length validation once a terminator is
appended. -/
def goodId (id : List Nat) : Prop :=
  (∀ b ∈ id, b ≠ 0) ∧ id.length + 1 < SR_MAX_KEY_ID_SIZE

instance (id : List Nat) : Decidable (goodId id) := by
  unfold goodId; infer_instance

/-- Key-id buffer a well-behaved caller passes: the identifier bytes
followed by the terminator, with the declared size covering both. -/
def goodMem (id : List Nat) : List Nat := id ++ [0]

/-- Well-formed generate_key request for an identifier, asking for an ECDSA
secp256k1 key with a 20-byte output buffer. -/
def genInput (id : List Nat) : GenerateInput :=
  { paramTypes := GENERATE_KEY_PTYPES
    keyIdMem := goodMem id
    keyIdLen := id.length + 1
    keyType := SR_KEY_TYPE_ECDSA_SECP256K1
    outSize := SR_ETHEREUM_ADDRESS_SIZE }

/-- Well-formed sign_message request for an identifier and a 32-byte hash
buffer. -/
def signInput (id hash : List Nat) : SignInput :=
  { paramTypes := SIGN_MESSAGE_PTYPES
    keyIdMem := goodMem id
    keyIdLen := id.length + 1
    hashMem := hash
    hashLen := SR_MESSAGE_HASH_SIZE
    outSize := SIZEOF_SR_SIGNATURE_RESULT }

/-- Well-formed get_public_key request for an identifier. -/
def getPubInput (id : List Nat) : GetPublicKeyInput :=
  { paramTypes := GET_PUBLIC_KEY_PTYPES
    keyIdMem := goodMem id
    keyIdLen := id.length + 1
    outSize := SIZEOF_SR_PUBLIC_KEY_RESULT }

/-- Well-formed single-output request with a large enough buffer. -/
def bigOutInput : OutBufInput :=
  { paramTypes := SINGLE_OUTPUT_PTYPES, outSize := SIZEOF_SR_KEY_LIST_RESULT }

/-- Entry with its secret material erased; used to state that an output
does not depend on secret material. -/
def scrubEntry (e : sr_key_entry_t) : sr_key_entry_t :=
  { e with
      private_key := List.replicate SR_SECP256K1_PRIVATE_KEY_SIZE 0
      private_key_len := 0 }

/-- Two states that agree everywhere except possibly on stored secret
material (the private-key bytes and their length). -/
def eqExceptSecret (s t : SRState) : Prop :=
  { s with g_key_storage := s.g_key_storage.map scrubEntry } =
    { t with g_key_storage := t.g_key_storage.map scrubEntry }

instance (s t : SRState) : Decidable (eqExceptSecret s t) := by
  unfold eqExceptSecret; infer_instance

/-- Projection of a metadata record to the fields no command ever rewrites
after creation: identifier, type, status, creation time and address. -/
def stableView (k : sr_key_info_t) : List Nat × Nat × Nat × Nat × List Nat :=
  (k.key_id, k.key_type, k.status, k.created_time, k.ethereum_address)

/-- Run of successive generate_key calls with well-formed requests,
returning the result codes in order and the final state. -/
def runGens (s : SRState) : List (List Nat × GenOracle) → List Nat × SRState
  | [] => ([], s)
  | (id, o) :: rest =>
      let r := cmd_generate_key s (genInput id) o
      let t := runGens r.2.1 rest
      (r.1 :: t.1, t.2)

/-- Run of successive sign_message calls on one identifier, returning for
each call its result code and the state after it. -/
def runSigns (s : SRState) (id : List Nat) :
    List (SignOracle × List Nat) → List (Nat × SRState)
  | [] => []
  | (o, h) :: rest =>
      let r := cmd_sign_message s (signInput id h) o
      (r.1, r.2.1) :: runSigns r.2.1 id rest

/-- Final state after a run of successive sign_message calls on one
identifier. -/
def runSignsEnd (s : SRState) (id : List Nat) :
    List (SignOracle × List Nat) → SRState
  | [] => s
  | (o, h) :: rest => runSignsEnd (cmd_sign_message s (signInput id h) o).2.1 id rest

/-! Concrete oracles used by the closed instances. -/

/-- Digest oracle that always succeeds with a fixed 32-byte value. -/
def mockDigest : List Nat → Option (List Nat) :=
  fun _ => some ((List.range 32).map (fun k => k + 1))

/-- Generation oracle that succeeds with fixed key material. -/
def mockGen : GenOracle :=
  { keygen :=
      some
        { priv := List.replicate 32 7
          pubX := List.replicate 32 1
          pubY := List.replicate 32 2 }
    keygenErr := 0xFFFF000C
    digest := mockDigest
    now := 100 }

/-- Signing oracle that succeeds with a fixed 64-byte signature at the
given sampled time. -/
def mockSigner (t : Nat) : SignOracle :=
  { sig := some (List.replicate 64 9)
    sigErr := 0xFFFF000C
    now := t }


/-- Public-key buffer contents after a successful keypair generation: X at
offset 0 and Y at offset 32 of the zeroed 64-byte buffer. -/
def genPub (kp : KeypairBits) : List Nat :=
  storeBytes (storeBytes (List.replicate SR_SECP256K1_PUBLIC_KEY_SIZE 0) 0 kp.pubX)
    32 kp.pubY

/-- Stored key_id array corresponding to a well-formed identifier. -/
def storedIdOf (id : List Nat) : List Nat :=
  id ++ 0 :: List.replicate (SR_MAX_KEY_ID_SIZE - 1 - id.length) 0

/-- Entry a successful generate_key call with request genInput id and
oracle o (keypair kp) appends to the store. -/
def genEntry (id : List Nat) (o : GenOracle) (kp : KeypairBits) : sr_key_entry_t :=
  { key_id := storedIdOf id
    key_type := SR_KEY_TYPE_ECDSA_SECP256K1
    private_key :=
      storeBytes (List.replicate SR_SECP256K1_PRIVATE_KEY_SIZE 0) 0 kp.priv
    public_key := genPub kp
    private_key_len := kp.priv.length
    public_key_len := kp.pubX.length + kp.pubY.length
    info :=
      { key_id := storedIdOf id
        key_type := SR_KEY_TYPE_ECDSA_SECP256K1
        status := SR_KEY_STATUS_ACTIVE
        created_time := o.now
        last_used_time := o.now
        usage_count := 0
        ethereum_address := derive_ethereum_address o.digest (genPub kp) } }

/-- Every live entry carries the ECDSA secp256k1 key type. -/
def allEcdsa (s : SRState) : Prop :=
  ∀ e ∈ s.g_key_storage, e.key_type = SR_KEY_TYPE_ECDSA_SECP256K1

instance (s : SRState) : Decidable (allEcdsa s) := by
  unfold allEcdsa; infer_instance


/-- Sixteen well-formed generate_key requests with distinct identifiers. -/
def fullGenCalls : List (List Nat × GenOracle) :=
  (List.range SR_MAX_KEYS).map (fun k => ([k + 1], mockGen))

/-- Store filled to capacity by sixteen successful generate_key calls. -/
def fullState : SRState :=
  (runGens (TA_CreateEntryPoint 0) fullGenCalls).2

/-- Store holding the single key with identifier byte 1. -/
def oneKeyState : SRState :=
  (cmd_generate_key (TA_CreateEntryPoint 0) (genInput [1]) mockGen).2.1

/-- Store produced by a generate_key call whose key_id buffer bytes are
97, 98 with declared length 2 (no terminator inside the declared bytes). -/
def c8State : SRState :=
  (cmd_generate_key (TA_CreateEntryPoint 0)
    { paramTypes := GENERATE_KEY_PTYPES
      keyIdMem := [97, 98]
      keyIdLen := 2
      keyType := SR_KEY_TYPE_ECDSA_SECP256K1
      outSize := SR_ETHEREUM_ADDRESS_SIZE } mockGen).2.1

/-- Store holding one record with identifier byte 5 whose status is
Inactive (1). -/
def inactiveState : SRState :=
  { g_keys := [{ zeroKeyInfo with key_id := storedIdOf [5], status := 1 }]
    g_key_storage :=
      [{ zeroKeyEntry with
          key_id := storedIdOf [5]
          info := { zeroKeyInfo with key_id := storedIdOf [5], status := 1 } }]
    g_key_count := 1
    g_session_count := 0
    g_operation_count := 0
    g_start_time := 0 }

/-! Lemmas about the byte-level helpers. -/

lemma takeCStr_nil (n : Nat) : takeCStr [] n = [] := by
  cases n <;> rfl

lemma mem_takeCStr_ne_zero :
    ∀ (mem : List Nat) (n : Nat), ∀ b ∈ takeCStr mem n, b ≠ 0 := by
  intro mem
  induction mem with
  | nil => intro n; simp [takeCStr_nil]
  | cons a l ih =>
      intro n
      cases n with
      | zero => simp [takeCStr]
      | succ m =>
          by_cases ha : a = 0
          · simp [takeCStr, ha]
          · simp only [takeCStr, if_neg ha]
            intro b hb
            rcases List.mem_cons.mp hb with h | h
            · exact h ▸ ha
            · exact ih m b h

lemma takeCStr_length_le :
    ∀ (mem : List Nat) (n : Nat), (takeCStr mem n).length ≤ n := by
  intro mem
  induction mem with
  | nil => intro n; simp [takeCStr_nil]
  | cons a l ih =>
      intro n
      cases n with
      | zero => simp [takeCStr]
      | succ m =>
          by_cases ha : a = 0
          · simp [takeCStr, ha]
          · simp only [takeCStr, if_neg ha, List.length_cons]
            exact Nat.succ_le_succ (ih m)

lemma takeCStr_append_stop :
    ∀ (id : List Nat) (n : Nat) (rest : List Nat),
      (∀ b ∈ id, b ≠ 0) → id.length ≤ n →
      takeCStr (id ++ 0 :: rest) n = id := by
  intro id
  induction id with
  | nil =>
      intro n rest _ _
      cases n with
      | zero => rfl
      | succ m => simp [takeCStr]
  | cons a l ih =>
      intro n rest hnz hlen
      cases n with
      | zero => simp at hlen
      | succ m =>
          have ha : a ≠ 0 := hnz a (List.mem_cons_self a l)
          simp only [List.cons_append, takeCStr, if_neg ha]
          have h : takeCStr (l ++ 0 :: rest) m = l :=
            ih m rest (fun b hb => hnz b (List.mem_cons_of_mem a hb))
              (Nat.le_of_succ_le_succ (by simpa using hlen))
          show a :: takeCStr (l ++ 0 :: rest) m = a :: l
          rw [h]

lemma storedKeyId_shape (mem : List Nat) (len : Nat) (hlen : len ≤ SR_MAX_KEY_ID_SIZE - 1) :
    storedKeyId mem len =
      takeCStr mem len ++
        0 :: List.replicate (SR_MAX_KEY_ID_SIZE - 1 - (takeCStr mem len).length) 0 := by
  have h1 : (takeCStr mem len).length ≤ SR_MAX_KEY_ID_SIZE - 1 :=
    le_trans (takeCStr_length_le mem len) hlen
  have h2 : SR_MAX_KEY_ID_SIZE - (takeCStr mem len).length =
      (SR_MAX_KEY_ID_SIZE - 1 - (takeCStr mem len).length) + 1 := by
    unfold SR_MAX_KEY_ID_SIZE at *
    omega
  show takeCStr mem len ++
      List.replicate (SR_MAX_KEY_ID_SIZE - (takeCStr mem len).length) 0 =
    takeCStr mem len ++
      0 :: List.replicate (SR_MAX_KEY_ID_SIZE - 1 - (takeCStr mem len).length) 0
  rw [h2]
  simp [List.replicate_succ]

lemma strncmpEq_sep :
    ∀ (a : List Nat) (n : Nat) (b x y : List Nat),
      (∀ c ∈ a, c ≠ 0) → (∀ c ∈ b, c ≠ 0) →
      a.length < n → b.length < n →
      strncmpEq (a ++ 0 :: x) (b ++ 0 :: y) n = decide (a = b) := by
  intro a
  induction a with
  | nil =>
      intro n b x y _ hb ha hbn
      cases n with
      | zero => omega
      | succ m =>
          cases b with
          | nil => simp [strncmpEq]
          | cons hb0 tb =>
              have : hb0 ≠ 0 := hb hb0 (List.mem_cons_self hb0 tb)
              simp [strncmpEq, Ne.symm this]
  | cons ha0 ta ih =>
      intro n b x y hanz hbnz ha hbn
      cases n with
      | zero => omega
      | succ m =>
          have ha0nz : ha0 ≠ 0 := hanz ha0 (List.mem_cons_self ha0 ta)
          cases b with
          | nil => simp [strncmpEq, ha0nz]
          | cons hb0 tb =>
              by_cases hab : ha0 = hb0
              · subst hab
                have heq :
                    strncmpEq (ta ++ 0 :: x) (tb ++ 0 :: y) m = decide (ta = tb) :=
                  ih m tb x y (fun c hc => hanz c (List.mem_cons_of_mem _ hc))
                    (fun c hc => hbnz c (List.mem_cons_of_mem _ hc))
                    (by simp at ha; omega) (by simp at hbn; omega)
                simp [strncmpEq, ha0nz, heq]
              · simp [strncmpEq, hab]

/-- Matching a shaped stored key_id array against a terminated caller
buffer is exactly equality of the identifier bytes. -/
lemma strncmpEq_shaped (e : sr_key_entry_t) (he : entryShaped e)
    (id rest : List Nat) (hid : ∀ b ∈ id, b ≠ 0)
    (hlen : id.length < SR_MAX_KEY_ID_SIZE) :
    strncmpEq e.key_id (id ++ 0 :: rest) SR_MAX_KEY_ID_SIZE = decide (keyCore e = id) := by
  obtain ⟨hclen, hshape⟩ := he
  rw [hshape]
  exact strncmpEq_sep (keyCore e) SR_MAX_KEY_ID_SIZE id _ rest
    (fun c hc => mem_takeCStr_ne_zero _ _ c hc) hid
    (by unfold SR_MAX_KEY_ID_SIZE at *; omega) hlen

/-! Lemmas about key lookup. -/

lemma find_in_cases :
    ∀ (L : List sr_key_entry_t) (mem : List Nat) (i : Nat),
      find_in L mem i = -1 ∨
        ∃ j, find_in L mem i = Int.ofNat (i + j) ∧ j < L.length := by
  intro L
  induction L with
  | nil => intro mem i; left; rfl
  | cons e rest ih =>
      intro mem i
      by_cases h : strncmpEq e.key_id mem SR_MAX_KEY_ID_SIZE = true
      · right; exact ⟨0, by simp [find_in, h], by simp⟩
      · rcases ih mem (i + 1) with h1 | ⟨j, hj, hjl⟩
        · left; simpa [find_in, h] using h1
        · right
          refine ⟨j + 1, ?_, by simp; omega⟩
          simp only [find_in, h, if_false, Bool.false_eq_true]
          rw [hj]
          congr 1
          omega

lemma find_in_append (L1 L2 : List sr_key_entry_t) (mem : List Nat) (i : Nat) :
    find_in (L1 ++ L2) mem i =
      if 0 ≤ find_in L1 mem i then find_in L1 mem i
      else find_in L2 mem (i + L1.length) := by
  induction L1 generalizing i with
  | nil => simp [find_in]
  | cons e rest ih =>
      by_cases h : strncmpEq e.key_id mem SR_MAX_KEY_ID_SIZE = true
      · simp [find_in, h]
      · simp only [List.cons_append, find_in, h, if_false, Bool.false_eq_true]
        rw [List.append_eq, ih (i + 1)]
        have hlen : i + 1 + rest.length = i + (rest.length + 1) := by omega
        simp [hlen]

lemma find_in_shaped_not_mem :
    ∀ (L : List sr_key_entry_t) (id rest : List Nat) (i : Nat),
      (∀ e ∈ L, entryShaped e) → (∀ b ∈ id, b ≠ 0) →
      id.length < SR_MAX_KEY_ID_SIZE → id ∉ L.map keyCore →
      find_in L (id ++ 0 :: rest) i = -1 := by
  intro L
  induction L with
  | nil => intro id rest i _ _ _ _; rfl
  | cons e tl ih =>
      intro id rest i hL hid hlen hmem
      have he : entryShaped e := hL e (List.mem_cons_self e tl)
      have hne : keyCore e ≠ id := by
        intro h; exact hmem (by simp [h])
      have hmatch := strncmpEq_shaped e he id rest hid hlen
      simp only [find_in, hmatch, decide_eq_true_eq]
      rw [if_neg hne]
      exact ih id rest (i + 1) (fun x hx => hL x (List.mem_cons_of_mem e hx))
        hid hlen (fun h => hmem (by simp at h ⊢; right; exact h))

lemma find_in_shaped_mem :
    ∀ (L : List sr_key_entry_t) (id rest : List Nat) (i : Nat),
      (∀ e ∈ L, entryShaped e) → (∀ b ∈ id, b ≠ 0) →
      id.length < SR_MAX_KEY_ID_SIZE → id ∈ L.map keyCore →
      0 ≤ find_in L (id ++ 0 :: rest) i := by
  intro L
  induction L with
  | nil => intro id rest i _ _ _ hmem; simp at hmem
  | cons e tl ih =>
      intro id rest i hL hid hlen hmem
      have he : entryShaped e := hL e (List.mem_cons_self e tl)
      have hmatch := strncmpEq_shaped e he id rest hid hlen
      simp only [find_in, hmatch, decide_eq_true_eq]
      by_cases hc : keyCore e = id
      · rw [if_pos hc]; exact Int.ofNat_nonneg i
      · rw [if_neg hc]
        have hmem2 : id ∈ tl.map keyCore := by
          simp at hmem
          rcases hmem with h | h
          · exact absurd h.symm hc
          · simpa using h
        exact ih id rest (i + 1) (fun x hx => hL x (List.mem_cons_of_mem e hx))
          hid hlen hmem2

lemma find_in_shaped_nonneg_iff (L : List sr_key_entry_t) (id rest : List Nat) (i : Nat)
    (hL : ∀ e ∈ L, entryShaped e) (hid : ∀ b ∈ id, b ≠ 0)
    (hlen : id.length < SR_MAX_KEY_ID_SIZE) :
    0 ≤ find_in L (id ++ 0 :: rest) i ↔ id ∈ L.map keyCore := by
  constructor
  · intro h
    by_contra hmem
    rw [find_in_shaped_not_mem L id rest i hL hid hlen hmem] at h
    omega
  · exact find_in_shaped_mem L id rest i hL hid hlen

lemma find_in_shaped_core :
    ∀ (L : List sr_key_entry_t) (id rest : List Nat) (i j : Nat),
      (∀ e ∈ L, entryShaped e) → (∀ b ∈ id, b ≠ 0) →
      id.length < SR_MAX_KEY_ID_SIZE →
      find_in L (id ++ 0 :: rest) i = Int.ofNat j →
      i ≤ j ∧ j - i < L.length ∧ keyCore (L.getD (j - i) zeroKeyEntry) = id := by
  intro L
  induction L with
  | nil => intro id rest i j _ _ _ hfind; simp [find_in] at hfind
  | cons e tl ih =>
      intro id rest i j hL hid hlen hfind
      have he : entryShaped e := hL e (List.mem_cons_self e tl)
      have hmatch := strncmpEq_shaped e he id rest hid hlen
      simp only [find_in, hmatch, decide_eq_true_eq] at hfind
      by_cases hc : keyCore e = id
      · rw [if_pos hc] at hfind
        have hj : j = i := by
          have := Int.ofNat.inj hfind.symm
          omega
        subst hj
        simp [hc]
      · rw [if_neg hc] at hfind
        obtain ⟨h1, h2, h3⟩ :=
          ih id rest (i + 1) j (fun x hx => hL x (List.mem_cons_of_mem e hx))
            hid hlen hfind
        refine ⟨by omega, by simp; omega, ?_⟩
        have hji : j - i = (j - (i + 1)) + 1 := by omega
        rw [hji]
        simpa using h3

lemma find_in_congr (L1 L2 : List sr_key_entry_t) (mem : List Nat) (i : Nat)
    (h : L1.map sr_key_entry_t.key_id = L2.map sr_key_entry_t.key_id) :
    find_in L1 mem i = find_in L2 mem i := by
  induction L1 generalizing L2 i with
  | nil =>
      cases L2 with
      | nil => rfl
      | cons e tl => simp at h
  | cons e tl ih =>
      cases L2 with
      | nil => simp at h
      | cons f tl2 =>
          simp only [List.map_cons, List.cons.injEq] at h
          simp only [find_in, h.1]
          by_cases hm : strncmpEq f.key_id mem SR_MAX_KEY_ID_SIZE = true
          · simp [hm]
          · simp only [hm, if_false, Bool.false_eq_true]
            exact ih tl2 (i + 1) h.2

/-! Lemmas about well-formed identifiers and stored arrays. -/

lemma takeCStr_goodMem (id : List Nat) (h : ∀ b ∈ id, b ≠ 0) :
    takeCStr (goodMem id) (id.length + 1) = id :=
  takeCStr_append_stop id (id.length + 1) [] h (by omega)

lemma storedKeyId_goodMem (id : List Nat) (hid : goodId id) :
    storedKeyId (goodMem id) (id.length + 1) =
      id ++ 0 :: List.replicate (SR_MAX_KEY_ID_SIZE - 1 - id.length) 0 := by
  have hlen : id.length + 1 ≤ SR_MAX_KEY_ID_SIZE - 1 := by
    have := hid.2; unfold SR_MAX_KEY_ID_SIZE at *; omega
  rw [storedKeyId_shape (goodMem id) (id.length + 1) hlen,
    takeCStr_goodMem id hid.1]

lemma keyCore_of_key_id (e : sr_key_entry_t) (id : List Nat)
    (hid : ∀ b ∈ id, b ≠ 0) (hlen : id.length ≤ SR_MAX_KEY_ID_SIZE)
    (h : e.key_id = id ++ 0 :: List.replicate (SR_MAX_KEY_ID_SIZE - 1 - id.length) 0) :
    keyCore e = id := by
  unfold keyCore
  rw [h]
  exact takeCStr_append_stop id SR_MAX_KEY_ID_SIZE _ hid hlen

lemma entryShaped_of_storedKeyId (e : sr_key_entry_t) (mem : List Nat) (len : Nat)
    (hlen : len ≤ SR_MAX_KEY_ID_SIZE - 1) (h : e.key_id = storedKeyId mem len) :
    entryShaped e := by
  have hshape := storedKeyId_shape mem len hlen
  have htlen : (takeCStr mem len).length ≤ SR_MAX_KEY_ID_SIZE - 1 :=
    le_trans (takeCStr_length_le mem len) hlen
  have hcore : keyCore e = takeCStr mem len := by
    apply keyCore_of_key_id e _ (fun b hb => mem_takeCStr_ne_zero mem len b hb)
      (by unfold SR_MAX_KEY_ID_SIZE at *; omega)
    rw [h, hshape]
  exact ⟨by rw [hcore]; exact htlen, by rw [hcore, h, hshape]⟩

lemma keyCore_genEntry (id : List Nat) (o : GenOracle) (kp : KeypairBits)
    (hid : goodId id) : keyCore (genEntry id o kp) = id := by
  apply keyCore_of_key_id _ id hid.1
    (by have := hid.2; unfold SR_MAX_KEY_ID_SIZE at *; omega)
  rfl

lemma entryShaped_genEntry (id : List Nat) (o : GenOracle) (kp : KeypairBits)
    (hid : goodId id) : entryShaped (genEntry id o kp) := by
  have hc := keyCore_genEntry id o kp hid
  exact ⟨by rw [hc]; have := hid.2; unfold SR_MAX_KEY_ID_SIZE at *; omega,
    by rw [hc]; rfl⟩

/-! Characterizations of cmd_generate_key. -/

lemma generate_secp256k1_keypair_some (o : GenOracle) (e : sr_key_entry_t)
    (kp : KeypairBits) (h : o.keygen = some kp) :
    generate_secp256k1_keypair o e =
      (TEE_SUCCESS,
        { e with
            private_key := storeBytes e.private_key 0 kp.priv
            private_key_len := kp.priv.length
            public_key := storeBytes (storeBytes e.public_key 0 kp.pubX) 32 kp.pubY
            public_key_len := kp.pubX.length + kp.pubY.length
            info :=
              { e.info with
                  ethereum_address :=
                    derive_ethereum_address o.digest
                      (storeBytes (storeBytes e.public_key 0 kp.pubX) 32 kp.pubY) } }) := by
  unfold generate_secp256k1_keypair
  rw [h]

lemma generate_secp256k1_keypair_key_id (o : GenOracle) (e : sr_key_entry_t) :
    (generate_secp256k1_keypair o e).2.key_id = e.key_id := by
  unfold generate_secp256k1_keypair
  cases o.keygen <;> simp

lemma generate_secp256k1_keypair_key_type (o : GenOracle) (e : sr_key_entry_t) :
    (generate_secp256k1_keypair o e).2.key_type = e.key_type := by
  unfold generate_secp256k1_keypair
  cases o.keygen <;> simp

/-- Generation-failure path of generate_key_finish: state untouched. -/
lemma generate_key_finish_fail (s : SRState) (inp : GenerateInput)
    (gen : Nat × sr_key_entry_t) (h : gen.1 ≠ TEE_SUCCESS) :
    (generate_key_finish s inp gen).2.1 = s ∧
      (generate_key_finish s inp gen).2.2 = none ∧
      (generate_key_finish s inp gen).1 = gen.1 := by
  unfold generate_key_finish
  rw [if_pos h]
  exact ⟨rfl, rfl, rfl⟩

/-- Every outcome of generate_key_finish is either a success or leaves the
state untouched with nothing written to the output buffer. -/
lemma generate_key_finish_cases (s : SRState) (inp : GenerateInput)
    (gen : Nat × sr_key_entry_t) :
    ((generate_key_finish s inp gen).1 = TEE_SUCCESS ∧
        gen.1 = TEE_SUCCESS ∧
        (generate_key_finish s inp gen).2.2 =
          some (gen.2.info.ethereum_address.take SR_ETHEREUM_ADDRESS_SIZE) ∧
        (generate_key_finish s inp gen).2.1 =
          { s with
              g_keys := s.g_keys ++ [gen.2.info]
              g_key_storage := s.g_key_storage ++ [gen.2]
              g_key_count := s.g_key_count + 1
              g_operation_count := (s.g_operation_count + 1) % UINT32_MOD }) ∨
      ((generate_key_finish s inp gen).1 ≠ TEE_SUCCESS ∧
        (generate_key_finish s inp gen).2.1 = s ∧
        (generate_key_finish s inp gen).2.2 = none) := by
  unfold generate_key_finish
  split
  next h =>
    right
    refine ⟨?_, rfl, rfl⟩
    show gen.1 ≠ TEE_SUCCESS
    exact h
  next h =>
    split
    · right
      refine ⟨?_, rfl, rfl⟩
      show TEE_ERROR_SHORT_BUFFER ≠ TEE_SUCCESS
      simp [TEE_ERROR_SHORT_BUFFER, TEE_SUCCESS]
    · left; exact ⟨rfl, by simpa using h, rfl, rfl⟩

/-- Every outcome of cmd_generate_key is either a success or leaves the
state untouched with nothing written to the output buffer. -/
lemma cmd_generate_key_cases (s : SRState) (inp : GenerateInput) (o : GenOracle) :
    (cmd_generate_key s inp o).1 = TEE_SUCCESS ∨
      ((cmd_generate_key s inp o).2.1 = s ∧ (cmd_generate_key s inp o).2.2 = none) := by
  unfold cmd_generate_key
  split
  · right; exact ⟨rfl, rfl⟩
  split
  · right; exact ⟨rfl, rfl⟩
  split
  · right; exact ⟨rfl, rfl⟩
  split
  · right; exact ⟨rfl, rfl⟩
  split
  · right; exact ⟨rfl, rfl⟩
  dsimp only
  rcases generate_key_finish_cases s inp _ with ⟨h1, _⟩ | ⟨_, h2, h3⟩
  · left; exact h1
  · right; exact ⟨h2, h3⟩

/-- Failure of cmd_generate_key leaves the state untouched. -/
lemma cmd_generate_key_fail (s : SRState) (inp : GenerateInput) (o : GenOracle)
    (h : (cmd_generate_key s inp o).1 ≠ TEE_SUCCESS) :
    (cmd_generate_key s inp o).2.1 = s ∧ (cmd_generate_key s inp o).2.2 = none := by
  rcases cmd_generate_key_cases s inp o with h1 | h1
  · exact absurd h1 h
  · exact h1

/-- Full characterization of a successful generate_key call with a
well-formed request, a fresh identifier and a provider that produced a
keypair. -/
lemma cmd_generate_key_good (s : SRState) (id : List Nat) (o : GenOracle)
    (kp : KeypairBits) (hWF : WFStore s) (hid : goodId id)
    (hkp : o.keygen = some kp) (hfresh : id ∉ coresOf s)
    (hcap : s.g_key_count < SR_MAX_KEYS) :
    cmd_generate_key s (genInput id) o =
      (TEE_SUCCESS,
        { s with
            g_keys := s.g_keys ++ [(genEntry id o kp).info]
            g_key_storage := s.g_key_storage ++ [genEntry id o kp]
            g_key_count := s.g_key_count + 1
            g_operation_count := (s.g_operation_count + 1) % UINT32_MOD },
        some ((genEntry id o kp).info.ethereum_address.take SR_ETHEREUM_ADDRESS_SIZE)) := by
  have hidlen : id.length < SR_MAX_KEY_ID_SIZE := by
    have := hid.2; omega
  have hfind : find_key_index s (goodMem id) = -1 := by
    unfold find_key_index
    rw [hWF.1, List.take_length]
    exact find_in_shaped_not_mem s.g_key_storage id [] 0 hWF.2.2 hid.1 hidlen hfresh
  have hkid := storedKeyId_goodMem id hid
  have hinfoid :
      storedKeyId (storedKeyId (goodMem id) (id.length + 1)) (SR_MAX_KEY_ID_SIZE - 1) =
        storedIdOf id := by
    rw [hkid]
    rw [storedKeyId_shape _ _ (le_refl (SR_MAX_KEY_ID_SIZE - 1))]
    rw [takeCStr_append_stop id (SR_MAX_KEY_ID_SIZE - 1) _ hid.1
      (by have := hid.2; unfold SR_MAX_KEY_ID_SIZE at *; omega)]
    rfl
  unfold cmd_generate_key
  rw [if_neg (show ¬ ((genInput id).paramTypes ≠ GENERATE_KEY_PTYPES) from by
    simp [genInput])]
  rw [if_neg (show ¬ (SR_MAX_KEYS ≤ s.g_key_count) from by omega)]
  rw [if_neg (show ¬ ((genInput id).keyIdLen = 0 ∨
      SR_MAX_KEY_ID_SIZE ≤ (genInput id).keyIdLen) from by
    have h2 := hid.2; simp [genInput]; omega)]
  rw [if_neg (show ¬ (SR_KEY_TYPE_MAX ≤ (genInput id).keyType) from by
    have h3 : (genInput id).keyType = 0 := rfl
    rw [h3]; unfold SR_KEY_TYPE_MAX; omega)]
  rw [if_neg (show ¬ (0 ≤ find_key_index s (genInput id).keyIdMem) from by
    show ¬ (0 ≤ find_key_index s (goodMem id))
    rw [hfind]; omega)]
  dsimp only
  rw [if_pos (show (genInput id).keyType = SR_KEY_TYPE_ECDSA_SECP256K1 from rfl)]
  rw [generate_secp256k1_keypair_some o _ kp hkp]
  unfold generate_key_finish
  dsimp only
  rw [if_neg (show ¬ (TEE_SUCCESS ≠ TEE_SUCCESS) from by simp)]
  rw [if_neg (show ¬ ((genInput id).outSize < SR_ETHEREUM_ADDRESS_SIZE) from by
    show ¬ (SR_ETHEREUM_ADDRESS_SIZE < SR_ETHEREUM_ADDRESS_SIZE)
    omega)]
  simp only [genInput]
  rw [hinfoid]
  rw [hkid]
  rfl

/-! Characterizations of cmd_sign_message. -/

lemma sign_message_ecdsa_some (o : SignOracle) (ke : sr_key_entry_t)
    (mh : List Nat) (r : sr_signature_result_t) (sg : List Nat)
    (h : o.sig = some sg) :
    sign_message_ecdsa o ke mh r =
      (TEE_SUCCESS,
        { signature := storeBytes r.signature 0 sg
          signature_len := sg.length
          recovery_id := 0 }) := by
  unfold sign_message_ecdsa
  rw [h]

/-- With a message-hash length other than 32 the command fails with
BAD_PARAMETERS, touches no state, writes nothing, and never consults the
oracle. -/
lemma cmd_sign_message_badhash (s : SRState) (inp : SignInput) (o : SignOracle)
    (h : inp.hashLen ≠ SR_MESSAGE_HASH_SIZE) :
    cmd_sign_message s inp o = (TEE_ERROR_BAD_PARAMETERS, s, none) := by
  unfold cmd_sign_message
  by_cases h1 : inp.paramTypes ≠ SIGN_MESSAGE_PTYPES
  · rw [if_pos h1]
  · rw [if_neg h1]
    by_cases h2 : inp.keyIdLen = 0 ∨ SR_MAX_KEY_ID_SIZE ≤ inp.keyIdLen
    · rw [if_pos h2]
    · rw [if_neg h2, if_pos h]

/-- Lookup failure yields KEY_NOT_FOUND with no state change. -/
lemma cmd_sign_message_notfound (s : SRState) (inp : SignInput) (o : SignOracle)
    (hpt : inp.paramTypes = SIGN_MESSAGE_PTYPES)
    (hlen : ¬ (inp.keyIdLen = 0 ∨ SR_MAX_KEY_ID_SIZE ≤ inp.keyIdLen))
    (hh : inp.hashLen = SR_MESSAGE_HASH_SIZE)
    (hsz : SIZEOF_SR_SIGNATURE_RESULT ≤ inp.outSize)
    (hfind : find_key_index s inp.keyIdMem < 0) :
    cmd_sign_message s inp o = (SR_ERROR_KEY_NOT_FOUND, s, none) := by
  unfold cmd_sign_message
  rw [if_neg (show ¬ (inp.paramTypes ≠ SIGN_MESSAGE_PTYPES) from by simp [hpt])]
  rw [if_neg hlen]
  rw [if_neg (show ¬ (inp.hashLen ≠ SR_MESSAGE_HASH_SIZE) from by simp [hh])]
  rw [if_neg (show ¬ (inp.outSize < SIZEOF_SR_SIGNATURE_RESULT) from by omega)]
  cases hf : find_key_index s inp.keyIdMem with
  | ofNat n =>
      exfalso
      rw [hf] at hfind
      exact absurd hfind (not_lt.mpr (Int.ofNat_nonneg n))
  | negSucc n =>
      dsimp only
      rw [if_pos (show (Int.negSucc n : Int) < 0 from Int.negSucc_lt_zero n)]

/-- The state and output views of sign_message_found: either untouched, or
a success rewriting slot idx. -/
lemma sign_message_found_state_cases (s : SRState) (inp : SignInput) (o : SignOracle)
    (idx : Nat) (e : sr_key_entry_t) :
    (sign_message_found s inp o idx e).2.1 = s ∨
      (sign_message_found s inp o idx e).2.1 =
        { s with
            g_key_storage := s.g_key_storage.set idx { e with info := signedInfo e.info o }
            g_keys := s.g_keys.set idx (signedInfo e.info o)
            g_operation_count := (s.g_operation_count + 1) % UINT32_MOD } := by
  unfold sign_message_found sign_message_finish
  repeat' split
  all_goals first
    | (left; rfl)
    | (right; rfl)

/-- Lookup success on a record whose status is not Active yields
ACCESS_DENIED with no state change. -/
lemma cmd_sign_message_denied (s : SRState) (inp : SignInput) (o : SignOracle)
    (i : Nat)
    (hpt : inp.paramTypes = SIGN_MESSAGE_PTYPES)
    (hlen : ¬ (inp.keyIdLen = 0 ∨ SR_MAX_KEY_ID_SIZE ≤ inp.keyIdLen))
    (hh : inp.hashLen = SR_MESSAGE_HASH_SIZE)
    (hsz : SIZEOF_SR_SIGNATURE_RESULT ≤ inp.outSize)
    (hfind : find_key_index s inp.keyIdMem = Int.ofNat i)
    (hstatus : (s.g_key_storage.getD i zeroKeyEntry).info.status ≠ SR_KEY_STATUS_ACTIVE) :
    cmd_sign_message s inp o = (TEE_ERROR_ACCESS_DENIED, s, none) := by
  unfold cmd_sign_message
  rw [if_neg (show ¬ (inp.paramTypes ≠ SIGN_MESSAGE_PTYPES) from by simp [hpt])]
  rw [if_neg hlen]
  rw [if_neg (show ¬ (inp.hashLen ≠ SR_MESSAGE_HASH_SIZE) from by simp [hh])]
  rw [if_neg (show ¬ (inp.outSize < SIZEOF_SR_SIGNATURE_RESULT) from by omega)]
  rw [hfind]
  dsimp only
  rw [if_neg (show ¬ ((Int.ofNat i : Int) < 0) from not_lt.mpr (Int.ofNat_nonneg i))]
  rw [show (Int.ofNat i).toNat = i from rfl]
  unfold sign_message_found
  rw [if_pos hstatus]

/-- Every outcome of cmd_sign_message either leaves the state untouched or
is a success that rewrites exactly one slot with its usage fields bumped
and increments the operation counter. -/
lemma cmd_sign_message_state_cases (s : SRState) (inp : SignInput) (o : SignOracle) :
    (cmd_sign_message s inp o).2.1 = s ∨
      ∃ i,
        (cmd_sign_message s inp o).2.1 =
          { s with
              g_key_storage :=
                s.g_key_storage.set i
                  { s.g_key_storage.getD i zeroKeyEntry with
                      info := signedInfo (s.g_key_storage.getD i zeroKeyEntry).info o }
              g_keys :=
                s.g_keys.set i (signedInfo (s.g_key_storage.getD i zeroKeyEntry).info o)
              g_operation_count := (s.g_operation_count + 1) % UINT32_MOD } := by
  unfold cmd_sign_message
  split
  · left; rfl
  split
  · left; rfl
  split
  · left; rfl
  split
  · left; rfl
  dsimp only
  split
  · left; rfl
  rcases sign_message_found_state_cases s inp o (find_key_index s inp.keyIdMem).toNat
      (s.g_key_storage.getD (find_key_index s inp.keyIdMem).toNat zeroKeyEntry) with h | h
  · left; exact h
  · right; exact ⟨(find_key_index s inp.keyIdMem).toNat, h⟩

/-- Success path of sign_message_found: Active status, ECDSA type and a
provider signature give the exact updated state and output. -/
lemma sign_message_found_good (s : SRState) (inp : SignInput) (o : SignOracle)
    (idx : Nat) (e : sr_key_entry_t) (sg : List Nat)
    (hstatus : e.info.status = SR_KEY_STATUS_ACTIVE)
    (htype : e.key_type = SR_KEY_TYPE_ECDSA_SECP256K1)
    (hsig : o.sig = some sg) :
    sign_message_found s inp o idx e =
      (TEE_SUCCESS,
        { s with
            g_key_storage := s.g_key_storage.set idx { e with info := signedInfo e.info o }
            g_keys := s.g_keys.set idx (signedInfo e.info o)
            g_operation_count := (s.g_operation_count + 1) % UINT32_MOD },
        some
          { signature := storeBytes zeroSignatureResult.signature 0 sg
            signature_len := sg.length
            recovery_id := 0 }) := by
  unfold sign_message_found
  rw [if_neg (show ¬ (e.info.status ≠ SR_KEY_STATUS_ACTIVE) from by simp [hstatus])]
  rw [if_pos htype]
  rw [sign_message_ecdsa_some o e _ _ sg hsig]
  unfold sign_message_finish
  rw [if_pos rfl]

/-- Full characterization of a successful sign_message call with a
well-formed request on an Active ECDSA record. -/
lemma cmd_sign_message_good (s : SRState) (id hash : List Nat) (o : SignOracle)
    (i : Nat) (sg : List Nat) (hgood : goodId id)
    (hfind : find_key_index s (goodMem id) = Int.ofNat i)
    (hstatus : (s.g_key_storage.getD i zeroKeyEntry).info.status = SR_KEY_STATUS_ACTIVE)
    (htype : (s.g_key_storage.getD i zeroKeyEntry).key_type = SR_KEY_TYPE_ECDSA_SECP256K1)
    (hsig : o.sig = some sg) :
    cmd_sign_message s (signInput id hash) o =
      (TEE_SUCCESS,
        { s with
            g_key_storage :=
              s.g_key_storage.set i
                { s.g_key_storage.getD i zeroKeyEntry with
                    info := signedInfo (s.g_key_storage.getD i zeroKeyEntry).info o }
            g_keys :=
              s.g_keys.set i (signedInfo (s.g_key_storage.getD i zeroKeyEntry).info o)
            g_operation_count := (s.g_operation_count + 1) % UINT32_MOD },
        some
          { signature := storeBytes zeroSignatureResult.signature 0 sg
            signature_len := sg.length
            recovery_id := 0 }) := by
  unfold cmd_sign_message
  rw [if_neg (show ¬ ((signInput id hash).paramTypes ≠ SIGN_MESSAGE_PTYPES) from by
    simp [signInput])]
  rw [if_neg (show ¬ ((signInput id hash).keyIdLen = 0 ∨
      SR_MAX_KEY_ID_SIZE ≤ (signInput id hash).keyIdLen) from by
    have h2 := hgood.2; simp [signInput]; omega)]
  rw [if_neg (show ¬ ((signInput id hash).hashLen ≠ SR_MESSAGE_HASH_SIZE) from by
    simp [signInput])]
  rw [if_neg (show ¬ ((signInput id hash).outSize < SIZEOF_SR_SIGNATURE_RESULT) from by
    show ¬ (SIZEOF_SR_SIGNATURE_RESULT < SIZEOF_SR_SIGNATURE_RESULT)
    omega)]
  have hfind2 : find_key_index s (signInput id hash).keyIdMem = Int.ofNat i := hfind
  rw [hfind2]
  dsimp only
  rw [if_neg (show ¬ ((Int.ofNat i : Int) < 0) from not_lt.mpr (Int.ofNat_nonneg i))]
  rw [show (Int.ofNat i).toNat = i from rfl]
  exact sign_message_found_good s _ o i _ sg hstatus htype hsig

/-- The state after cmd_get_public_key: unchanged, or only the operation
counter bumped. -/
lemma cmd_get_public_key_state (s : SRState) (inp : GetPublicKeyInput) :
    (cmd_get_public_key s inp).2.1 = s ∨
      (cmd_get_public_key s inp).2.1 =
        { s with g_operation_count := (s.g_operation_count + 1) % UINT32_MOD } := by
  unfold cmd_get_public_key
  dsimp only
  repeat' split
  all_goals first
    | (left; rfl)
    | (right; rfl)

/-- The state after cmd_list_keys: unchanged, or only the operation counter
bumped. -/
lemma cmd_list_keys_state (s : SRState) (inp : OutBufInput) :
    (cmd_list_keys s inp).2.1 = s ∨
      (cmd_list_keys s inp).2.1 =
        { s with g_operation_count := (s.g_operation_count + 1) % UINT32_MOD } := by
  unfold cmd_list_keys
  repeat' split
  all_goals first
    | (left; rfl)
    | (right; rfl)

/-- Every outcome of cmd_generate_key either leaves the state untouched or
is a success that appends one record built from the validated inputs, with
the ECDSA key type forced. -/
lemma cmd_generate_key_state_cases (s : SRState) (inp : GenerateInput) (o : GenOracle) :
    (cmd_generate_key s inp o).2.1 = s ∨
      (¬ (inp.keyIdLen = 0 ∨ SR_MAX_KEY_ID_SIZE ≤ inp.keyIdLen) ∧
        s.g_key_count < SR_MAX_KEYS ∧
        inp.keyType = SR_KEY_TYPE_ECDSA_SECP256K1 ∧
        ∃ e2 : sr_key_entry_t,
          e2.key_id = storedKeyId inp.keyIdMem inp.keyIdLen ∧
          e2.key_type = inp.keyType ∧
          (cmd_generate_key s inp o).2.1 =
            { s with
                g_keys := s.g_keys ++ [e2.info]
                g_key_storage := s.g_key_storage ++ [e2]
                g_key_count := s.g_key_count + 1
                g_operation_count := (s.g_operation_count + 1) % UINT32_MOD }) := by
  unfold cmd_generate_key
  split
  · left; rfl
  split
  · left; rfl
  next hcap =>
  split
  · left; rfl
  next hlen =>
  split
  · left; rfl
  split
  · left; rfl
  dsimp only
  split
  next hty0 =>
    rcases generate_key_finish_cases s inp (generate_secp256k1_keypair o _) with
      ⟨_, _, _, h3⟩ | ⟨_, h4, _⟩
    · right
      refine ⟨hlen, by omega, hty0, (generate_secp256k1_keypair o _).2, ?_, ?_, h3⟩
      · exact generate_secp256k1_keypair_key_id o _
      · rw [generate_secp256k1_keypair_key_type o _]
    · left; exact h4
  next hty0 =>
    split
    next hty1 =>
      left
      exact (generate_key_finish_fail s inp _
        (by simp [TEE_ERROR_NOT_IMPLEMENTED, TEE_SUCCESS])).1
    next hty1 =>
      left
      exact (generate_key_finish_fail s inp _
        (by simp [TEE_ERROR_NOT_SUPPORTED, TEE_SUCCESS])).1

/-! Generic list access helpers. -/

lemma list_getD_append {A : Type} (l1 l2 : List A) (d : A) (i : Nat)
    (h : i < l1.length) : (l1 ++ l2).getD i d = l1.getD i d := by
  rw [List.getD_eq_getElem?_getD, List.getD_eq_getElem?_getD]
  simp [List.getElem?_append, h]

lemma list_getD_append_self {A : Type} (l : List A) (x d : A) :
    (l ++ [x]).getD l.length d = x := by
  rw [List.getD_eq_getElem?_getD]
  simp

lemma list_getD_set_self {A : Type} (l : List A) (i : Nat) (x d : A)
    (h : i < l.length) : (l.set i x).getD i d = x := by
  rw [List.getD_eq_getElem?_getD]
  simp [List.getElem?_set, h]

lemma list_getD_set_ne {A : Type} (l : List A) (i j : Nat) (x d : A)
    (h : i ≠ j) : (l.set i x).getD j d = l.getD j d := by
  rw [List.getD_eq_getElem?_getD, List.getD_eq_getElem?_getD]
  simp [List.getElem?_set, h]

lemma list_getD_map_info (L : List sr_key_entry_t) (i : Nat) (h : i < L.length) :
    (L.map sr_key_entry_t.info).getD i zeroKeyInfo = (L.getD i zeroKeyEntry).info := by
  rw [List.getD_eq_getElem?_getD, List.getD_eq_getElem?_getD]
  simp [List.getElem?_map, List.getElem?_eq_getElem, h]

lemma getD_mem_or_default {A : Type} (L : List A) (i : Nat) (d : A) :
    L.getD i d ∈ L ∨ L.getD i d = d := by
  by_cases h : i < L.length
  · left
    rw [List.getD_eq_getElem?_getD]
    simp only [List.getElem?_eq_getElem h, Option.getD_some]
    exact List.getElem_mem h
  · right
    rw [List.getD_eq_getElem?_getD]
    simp [List.getElem?_eq_none (by omega : L.length ≤ i)]

/-! Preservation of the store invariants by every event. -/

lemma entryShaped_zeroKeyEntry : entryShaped zeroKeyEntry := by decide

lemma entryShaped_congr (e1 e2 : sr_key_entry_t) (h : e2.key_id = e1.key_id)
    (h1 : entryShaped e1) : entryShaped e2 := by
  have hc : keyCore e2 = keyCore e1 := by unfold keyCore; rw [h]
  exact ⟨by rw [hc]; exact h1.1, by rw [hc, h, h1.2]⟩

lemma WFStore_op_bump (s : SRState) (h : WFStore s) :
    WFStore { s with g_operation_count := (s.g_operation_count + 1) % UINT32_MOD } :=
  h

lemma WFStore_stepState (s : SRState) (ev : SREvent) (h : WFStore s) :
    WFStore (stepState s ev) := by
  cases ev with
  | invokeGenerateKey inp o =>
      show WFStore (cmd_generate_key s inp o).2.1
      rcases cmd_generate_key_state_cases s inp o with heq | ⟨hlen, _, _, e2, hkid, _, heq⟩
      · rw [heq]; exact h
      · rw [heq]
        refine ⟨by simp [h.1], by rw [h.2.1]; simp, ?_⟩
        intro x hx
        rcases List.mem_append.mp hx with hx1 | hx1
        · exact h.2.2 x hx1
        · have hx2 : x = e2 := by simpa using hx1
          subst hx2
          exact entryShaped_of_storedKeyId x inp.keyIdMem inp.keyIdLen
            (by unfold SR_MAX_KEY_ID_SIZE at *; omega) hkid
  | invokeSignMessage inp o =>
      show WFStore (cmd_sign_message s inp o).2.1
      rcases cmd_sign_message_state_cases s inp o with heq | ⟨i, heq⟩
      · rw [heq]; exact h
      · rw [heq]
        have hshaped : entryShaped (s.g_key_storage.getD i zeroKeyEntry) := by
          rcases getD_mem_or_default s.g_key_storage i zeroKeyEntry with hm | hm
          · exact h.2.2 _ hm
          · rw [hm]; exact entryShaped_zeroKeyEntry
        refine ⟨by simp [h.1], by rw [h.2.1, List.map_set], ?_⟩
        intro x hx
        rcases List.mem_or_eq_of_mem_set hx with hx1 | hx1
        · exact h.2.2 x hx1
        · subst hx1
          exact entryShaped_congr _ _ rfl hshaped
  | invokeGetPublicKey inp =>
      show WFStore (cmd_get_public_key s inp).2.1
      rcases cmd_get_public_key_state s inp with heq | heq
      · rw [heq]; exact h
      · rw [heq]; exact h
  | invokeListKeys inp =>
      show WFStore (cmd_list_keys s inp).2.1
      rcases cmd_list_keys_state s inp with heq | heq
      · rw [heq]; exact h
      · rw [heq]; exact h
  | invokeGetVersion inp => exact h
  | invokeHealthCheck inp now => exact h
  | invokeImportKey => exact h
  | invokeDeleteKey => exact h
  | invokeUnknown cmd_id => exact h
  | openSession => exact h
  | closeSession => exact h

lemma allEcdsa_stepState (s : SRState) (ev : SREvent) (h : allEcdsa s) :
    allEcdsa (stepState s ev) := by
  cases ev with
  | invokeGenerateKey inp o =>
      show allEcdsa (cmd_generate_key s inp o).2.1
      rcases cmd_generate_key_state_cases s inp o with heq | ⟨_, _, hty, e2, _, hkty, heq⟩
      · rw [heq]; exact h
      · rw [heq]
        intro x hx
        rcases List.mem_append.mp hx with hx1 | hx1
        · exact h x hx1
        · have hx2 : x = e2 := by simpa using hx1
          subst hx2
          rw [hkty, hty]
  | invokeSignMessage inp o =>
      show allEcdsa (cmd_sign_message s inp o).2.1
      rcases cmd_sign_message_state_cases s inp o with heq | ⟨i, heq⟩
      · rw [heq]; exact h
      · rw [heq]
        intro x hx
        rcases List.mem_or_eq_of_mem_set hx with hx1 | hx1
        · exact h x hx1
        · subst hx1
          show (s.g_key_storage.getD i zeroKeyEntry).key_type = SR_KEY_TYPE_ECDSA_SECP256K1
          rcases getD_mem_or_default s.g_key_storage i zeroKeyEntry with hm | hm
          · exact h _ hm
          · rw [hm]; rfl
  | invokeGetPublicKey inp =>
      show allEcdsa (cmd_get_public_key s inp).2.1
      rcases cmd_get_public_key_state s inp with heq | heq
      · rw [heq]; exact h
      · rw [heq]; exact h
  | invokeListKeys inp =>
      show allEcdsa (cmd_list_keys s inp).2.1
      rcases cmd_list_keys_state s inp with heq | heq
      · rw [heq]; exact h
      · rw [heq]; exact h
  | invokeGetVersion inp => exact h
  | invokeHealthCheck inp now => exact h
  | invokeImportKey => exact h
  | invokeDeleteKey => exact h
  | invokeUnknown cmd_id => exact h
  | openSession => exact h
  | closeSession => exact h

lemma WFStore_init (now : Nat) : WFStore (TA_CreateEntryPoint now) := by
  refine ⟨rfl, rfl, ?_⟩
  intro e he
  simp [TA_CreateEntryPoint] at he

lemma allEcdsa_init (now : Nat) : allEcdsa (TA_CreateEntryPoint now) := by
  intro e he
  simp [TA_CreateEntryPoint] at he

lemma WFStore_runEvents (s : SRState) (evs : List SREvent) (h : WFStore s) :
    WFStore (runEvents s evs) := by
  induction evs generalizing s with
  | nil => exact h
  | cons e t ih => exact ih (stepState s e) (WFStore_stepState s e h)

lemma allEcdsa_runEvents (s : SRState) (evs : List SREvent) (h : allEcdsa s) :
    allEcdsa (runEvents s evs) := by
  induction evs generalizing s with
  | nil => exact h
  | cons e t ih => exact ih (stepState s e) (allEcdsa_stepState s e h)

/-! Monotonicity of the key count and stability of the created metadata. -/

lemma stepState_count_mono (s : SRState) (ev : SREvent) :
    s.g_key_count ≤ (stepState s ev).g_key_count := by
  cases ev with
  | invokeGenerateKey inp o =>
      show s.g_key_count ≤ (cmd_generate_key s inp o).2.1.g_key_count
      rcases cmd_generate_key_state_cases s inp o with heq | ⟨_, _, _, e2, _, _, heq⟩
      · rw [heq]
      · rw [heq]; exact Nat.le_succ _
  | invokeSignMessage inp o =>
      show s.g_key_count ≤ (cmd_sign_message s inp o).2.1.g_key_count
      rcases cmd_sign_message_state_cases s inp o with heq | ⟨i, heq⟩
      · rw [heq]
      · rw [heq]
  | invokeGetPublicKey inp =>
      show s.g_key_count ≤ (cmd_get_public_key s inp).2.1.g_key_count
      rcases cmd_get_public_key_state s inp with heq | heq <;> rw [heq]
  | invokeListKeys inp =>
      show s.g_key_count ≤ (cmd_list_keys s inp).2.1.g_key_count
      rcases cmd_list_keys_state s inp with heq | heq <;> rw [heq]
  | invokeGetVersion inp => exact le_refl _
  | invokeHealthCheck inp now => exact le_refl _
  | invokeImportKey => exact le_refl _
  | invokeDeleteKey => exact le_refl _
  | invokeUnknown cmd_id => exact le_refl _
  | openSession => exact le_refl _
  | closeSession => exact le_refl _

lemma runEvents_count_mono (s : SRState) (evs : List SREvent) :
    s.g_key_count ≤ (runEvents s evs).g_key_count := by
  induction evs generalizing s with
  | nil => exact le_refl _
  | cons e t ih => exact le_trans (stepState_count_mono s e) (ih (stepState s e))

/-- One event never rewrites the identifying fields of a live metadata
record: the record at any live index keeps its key_id, type, status,
creation time and address. -/
lemma stepState_stable (s : SRState) (ev : SREvent) (h : WFStore s) (i : Nat)
    (hi : i < s.g_key_count) :
    stableView ((stepState s ev).g_keys.getD i zeroKeyInfo) =
      stableView (s.g_keys.getD i zeroKeyInfo) := by
  have hkeys : s.g_keys.length = s.g_key_count := by
    rw [h.2.1, List.length_map, ← h.1]
  cases ev with
  | invokeGenerateKey inp o =>
      show stableView ((cmd_generate_key s inp o).2.1.g_keys.getD i zeroKeyInfo) = _
      rcases cmd_generate_key_state_cases s inp o with heq | ⟨_, _, _, e2, _, _, heq⟩
      · rw [heq]
      · rw [heq]
        show stableView ((s.g_keys ++ [e2.info]).getD i zeroKeyInfo) = _
        rw [list_getD_append s.g_keys [e2.info] zeroKeyInfo i (by omega)]
  | invokeSignMessage inp o =>
      show stableView ((cmd_sign_message s inp o).2.1.g_keys.getD i zeroKeyInfo) = _
      rcases cmd_sign_message_state_cases s inp o with heq | ⟨j, heq⟩
      · rw [heq]
      · rw [heq]
        show stableView ((s.g_keys.set j
          (signedInfo (s.g_key_storage.getD j zeroKeyEntry).info o)).getD i zeroKeyInfo) = _
        by_cases hij : j = i
        · rw [hij]
          have hc1 : s.g_key_count = s.g_key_storage.length := h.1
          rw [list_getD_set_self s.g_keys i _ zeroKeyInfo (by omega)]
          have hkj : s.g_keys.getD i zeroKeyInfo =
              (s.g_key_storage.getD i zeroKeyEntry).info := by
            rw [h.2.1]
            exact list_getD_map_info s.g_key_storage i (by omega)
          rw [hkj]
          rfl
        · rw [list_getD_set_ne s.g_keys j i _ zeroKeyInfo hij]
  | invokeGetPublicKey inp =>
      show stableView ((cmd_get_public_key s inp).2.1.g_keys.getD i zeroKeyInfo) = _
      rcases cmd_get_public_key_state s inp with heq | heq <;> rw [heq]
  | invokeListKeys inp =>
      show stableView ((cmd_list_keys s inp).2.1.g_keys.getD i zeroKeyInfo) = _
      rcases cmd_list_keys_state s inp with heq | heq <;> rw [heq]
  | invokeGetVersion inp => rfl
  | invokeHealthCheck inp now => rfl
  | invokeImportKey => rfl
  | invokeDeleteKey => rfl
  | invokeUnknown cmd_id => rfl
  | openSession => rfl
  | closeSession => rfl

lemma runEvents_stable (s : SRState) (evs : List SREvent) (h : WFStore s) (i : Nat)
    (hi : i < s.g_key_count) :
    stableView ((runEvents s evs).g_keys.getD i zeroKeyInfo) =
      stableView (s.g_keys.getD i zeroKeyInfo) := by
  induction evs generalizing s with
  | nil => rfl
  | cons e t ih =>
      have h1 := WFStore_stepState s e h
      have h2 : i < (stepState s e).g_key_count :=
        lt_of_lt_of_le hi (stepState_count_mono s e)
      calc stableView ((runEvents (stepState s e) t).g_keys.getD i zeroKeyInfo)
          = stableView ((stepState s e).g_keys.getD i zeroKeyInfo) := ih (stepState s e) h1 h2
        _ = stableView (s.g_keys.getD i zeroKeyInfo) := stepState_stable s e h i hi

/-! Session-counter lemmas. -/

lemma session_generate (s : SRState) (inp : GenerateInput) (o : GenOracle) :
    ((cmd_generate_key s inp o).2.1).g_session_count = s.g_session_count := by
  rcases cmd_generate_key_state_cases s inp o with heq | ⟨_, _, _, e2, _, _, heq⟩ <;>
    rw [heq]

lemma session_sign (s : SRState) (inp : SignInput) (o : SignOracle) :
    ((cmd_sign_message s inp o).2.1).g_session_count = s.g_session_count := by
  rcases cmd_sign_message_state_cases s inp o with heq | ⟨i, heq⟩ <;> rw [heq]

lemma session_getpub (s : SRState) (inp : GetPublicKeyInput) :
    ((cmd_get_public_key s inp).2.1).g_session_count = s.g_session_count := by
  rcases cmd_get_public_key_state s inp with heq | heq <;> rw [heq]

lemma session_list (s : SRState) (inp : OutBufInput) :
    ((cmd_list_keys s inp).2.1).g_session_count = s.g_session_count := by
  rcases cmd_list_keys_state s inp with heq | heq <;> rw [heq]

/-- The session counter after a run is the session fold of the events. -/
lemma runEvents_sessionFold (evs : List SREvent) (s : SRState) :
    (runEvents s evs).g_session_count = sessionFold s.g_session_count evs := by
  induction evs generalizing s with
  | nil => rfl
  | cons e t ih =>
      cases e with
      | invokeGenerateKey inp o =>
          show (runEvents ((cmd_generate_key s inp o).2.1) t).g_session_count = _
          rw [ih, session_generate]
          rfl
      | invokeSignMessage inp o =>
          show (runEvents ((cmd_sign_message s inp o).2.1) t).g_session_count = _
          rw [ih, session_sign]
          rfl
      | invokeGetPublicKey inp =>
          show (runEvents ((cmd_get_public_key s inp).2.1) t).g_session_count = _
          rw [ih, session_getpub]
          rfl
      | invokeListKeys inp =>
          show (runEvents ((cmd_list_keys s inp).2.1) t).g_session_count = _
          rw [ih, session_list]
          rfl
      | invokeGetVersion inp => exact ih s
      | invokeHealthCheck inp now => exact ih s
      | invokeImportKey => exact ih s
      | invokeDeleteKey => exact ih s
      | invokeUnknown cmd_id => exact ih s
      | openSession => exact ih _
      | closeSession => exact ih _

/-- When no prefix of the events closes more sessions than it has opened,
and the opens cannot wrap the 32-bit counter, the session fold is exactly
opens minus closes. -/
lemma sessionFold_eq (evs : List SREvent) (c : Nat)
    (hpre : ∀ n, countCloses (evs.take n) ≤ c + countOpens (evs.take n))
    (hbound : c + countOpens evs < UINT32_MOD) :
    sessionFold c evs = c + countOpens evs - countCloses evs := by
  induction evs generalizing c with
  | nil => show c = c + 0 - 0; omega
  | cons e t ih =>
      cases e with
      | openSession =>
          have hco : countOpens (SREvent.openSession :: t) = countOpens t + 1 := rfl
          have hmod : (c + 1) % UINT32_MOD = c + 1 := by
            apply Nat.mod_eq_of_lt
            rw [hco] at hbound
            omega
          show sessionFold ((c + 1) % UINT32_MOD) t = _
          rw [hmod]
          rw [ih (c + 1)
            (fun n => by
              have h2 := hpre (n + 1)
              rw [List.take_succ_cons] at h2
              have h3 : countCloses (SREvent.openSession :: List.take n t) =
                  countCloses (List.take n t) := rfl
              have h4 : countOpens (SREvent.openSession :: List.take n t) =
                  countOpens (List.take n t) + 1 := rfl
              rw [h3, h4] at h2
              omega)
            (by rw [hco] at hbound; omega)]
          have hcc : countCloses (SREvent.openSession :: t) = countCloses t := rfl
          rw [hco, hcc]
          have hfull := hpre (t.length + 1)
          rw [List.take_succ_cons, List.take_length] at hfull
          have h3 : countCloses (SREvent.openSession :: t) = countCloses t := rfl
          have h4 : countOpens (SREvent.openSession :: t) = countOpens t + 1 := rfl
          rw [h3, h4] at hfull
          omega
      | closeSession =>
          have hco : countOpens (SREvent.closeSession :: t) = countOpens t := rfl
          have hcc : countCloses (SREvent.closeSession :: t) = countCloses t + 1 := rfl
          have hc1 : 1 ≤ c := by
            have h2 := hpre 1
            have h3 : countCloses (List.take 1 (SREvent.closeSession :: t)) = 1 := rfl
            have h4 : countOpens (List.take 1 (SREvent.closeSession :: t)) = 0 := rfl
            rw [h3, h4] at h2
            omega
          show sessionFold (if 0 < c then c - 1 else c) t = _
          rw [if_pos (by omega : 0 < c)]
          rw [ih (c - 1)
            (fun n => by
              have h2 := hpre (n + 1)
              rw [List.take_succ_cons] at h2
              have h3 : countCloses (SREvent.closeSession :: List.take n t) =
                  countCloses (List.take n t) + 1 := rfl
              have h4 : countOpens (SREvent.closeSession :: List.take n t) =
                  countOpens (List.take n t) := rfl
              rw [h3, h4] at h2
              omega)
            (by rw [hco] at hbound; omega)]
          rw [hco, hcc]
          have hfull := hpre (t.length + 1)
          rw [List.take_succ_cons, List.take_length] at hfull
          have h3 : countCloses (SREvent.closeSession :: t) = countCloses t + 1 := rfl
          have h4 : countOpens (SREvent.closeSession :: t) = countOpens t := rfl
          rw [h3, h4] at hfull
          omega
      | invokeGenerateKey inp o => exact ih c (fun n => hpre (n + 1)) hbound
      | invokeSignMessage inp o => exact ih c (fun n => hpre (n + 1)) hbound
      | invokeGetPublicKey inp => exact ih c (fun n => hpre (n + 1)) hbound
      | invokeListKeys inp => exact ih c (fun n => hpre (n + 1)) hbound
      | invokeGetVersion inp => exact ih c (fun n => hpre (n + 1)) hbound
      | invokeHealthCheck inp now => exact ih c (fun n => hpre (n + 1)) hbound
      | invokeImportKey => exact ih c (fun n => hpre (n + 1)) hbound
      | invokeDeleteKey => exact ih c (fun n => hpre (n + 1)) hbound
      | invokeUnknown cmd_id => exact ih c (fun n => hpre (n + 1)) hbound

/-! State-level lookup lemmas. -/

lemma find_key_index_not_mem (s : SRState) (id : List Nat) (hWF : WFStore s)
    (hnz : ∀ b ∈ id, b ≠ 0) (hlen : id.length < SR_MAX_KEY_ID_SIZE)
    (hfresh : id ∉ coresOf s) : find_key_index s (goodMem id) = -1 := by
  unfold find_key_index
  rw [hWF.1, List.take_length]
  exact find_in_shaped_not_mem s.g_key_storage id [] 0 hWF.2.2 hnz hlen hfresh

lemma find_key_index_nonneg_iff (s : SRState) (id rest : List Nat) (hWF : WFStore s)
    (hnz : ∀ b ∈ id, b ≠ 0) (hlen : id.length < SR_MAX_KEY_ID_SIZE) :
    0 ≤ find_key_index s (id ++ 0 :: rest) ↔ id ∈ coresOf s := by
  unfold find_key_index
  rw [hWF.1, List.take_length]
  exact find_in_shaped_nonneg_iff s.g_key_storage id rest 0 hWF.2.2 hnz hlen

lemma find_key_index_core (s : SRState) (id rest : List Nat) (j : Nat) (hWF : WFStore s)
    (hnz : ∀ b ∈ id, b ≠ 0) (hlen : id.length < SR_MAX_KEY_ID_SIZE)
    (hfind : find_key_index s (id ++ 0 :: rest) = Int.ofNat j) :
    j < s.g_key_storage.length ∧ keyCore (s.g_key_storage.getD j zeroKeyEntry) = id := by
  unfold find_key_index at hfind
  rw [hWF.1, List.take_length] at hfind
  have h := find_in_shaped_core s.g_key_storage id rest 0 j hWF.2.2 hnz hlen hfind
  exact ⟨by omega, by simpa using h.2.2⟩

/-- Lookup in a store extended with a fresh well-formed entry finds the
new entry at the old count. -/
lemma find_key_index_append_new (s : SRState) (id : List Nat) (o : GenOracle)
    (kp : KeypairBits) (hWF : WFStore s) (hid : goodId id) (hfresh : id ∉ coresOf s) :
    find_key_index
      { s with
          g_keys := s.g_keys ++ [(genEntry id o kp).info]
          g_key_storage := s.g_key_storage ++ [genEntry id o kp]
          g_key_count := s.g_key_count + 1
          g_operation_count := (s.g_operation_count + 1) % UINT32_MOD }
      (goodMem id) = Int.ofNat s.g_key_count := by
  have hidlen : id.length < SR_MAX_KEY_ID_SIZE := by have := hid.2; omega
  unfold find_key_index
  show find_in ((s.g_key_storage ++ [genEntry id o kp]).take (s.g_key_count + 1))
    (goodMem id) 0 = Int.ofNat s.g_key_count
  have hlen1 : (s.g_key_storage ++ [genEntry id o kp]).length = s.g_key_count + 1 := by
    rw [List.length_append, ← hWF.1]
    rfl
  rw [← hlen1, List.take_length]
  rw [find_in_append s.g_key_storage [genEntry id o kp] (goodMem id) 0]
  rw [if_neg (by
    show ¬ 0 ≤ find_in s.g_key_storage (id ++ 0 :: []) 0
    rw [find_in_shaped_not_mem s.g_key_storage id [] 0 hWF.2.2 hid.1 hidlen hfresh]
    omega)]
  have hmatch := strncmpEq_shaped (genEntry id o kp) (entryShaped_genEntry id o kp hid)
    id [] hid.1 hidlen
  show find_in [genEntry id o kp] (id ++ 0 :: []) (0 + s.g_key_storage.length) =
    Int.ofNat s.g_key_count
  unfold find_in
  rw [hmatch]
  rw [if_pos (by rw [keyCore_genEntry id o kp hid]; simp)]
  rw [← hWF.1]
  simp

/-! Characterizations of the read-only commands. -/

/-- Success characterization of cmd_get_public_key on a found key. -/
lemma cmd_get_public_key_good (s : SRState) (id : List Nat) (i : Nat)
    (hgood : goodId id)
    (hfind : find_key_index s (goodMem id) = Int.ofNat i) :
    cmd_get_public_key s (getPubInput id) =
      (TEE_SUCCESS,
        { s with g_operation_count := (s.g_operation_count + 1) % UINT32_MOD },
        some
          { public_key :=
              storeBytes (List.replicate SR_SECP256K1_PUBLIC_KEY_SIZE 0) 0
                ((s.g_key_storage.getD i zeroKeyEntry).public_key.take
                  (s.g_key_storage.getD i zeroKeyEntry).public_key_len)
            public_key_len := (s.g_key_storage.getD i zeroKeyEntry).public_key_len
            ethereum_address :=
              (s.g_key_storage.getD i zeroKeyEntry).info.ethereum_address.take
                SR_ETHEREUM_ADDRESS_SIZE }) := by
  unfold cmd_get_public_key
  rw [if_neg (show ¬ ((getPubInput id).paramTypes ≠ GET_PUBLIC_KEY_PTYPES) from by
    simp [getPubInput])]
  rw [if_neg (show ¬ ((getPubInput id).keyIdLen = 0 ∨
      SR_MAX_KEY_ID_SIZE ≤ (getPubInput id).keyIdLen) from by
    have h2 := hgood.2; simp [getPubInput]; omega)]
  rw [if_neg (show ¬ ((getPubInput id).outSize < SIZEOF_SR_PUBLIC_KEY_RESULT) from by
    show ¬ (SIZEOF_SR_PUBLIC_KEY_RESULT < SIZEOF_SR_PUBLIC_KEY_RESULT)
    omega)]
  have hfind2 : find_key_index s (getPubInput id).keyIdMem = Int.ofNat i := hfind
  rw [hfind2]
  dsimp only
  rw [if_neg (show ¬ ((Int.ofNat i : Int) < 0) from not_lt.mpr (Int.ofNat_nonneg i))]
  rfl

/-- Success characterization of cmd_list_keys with a valid request. -/
lemma cmd_list_keys_good (s : SRState) :
    cmd_list_keys s bigOutInput =
      (TEE_SUCCESS,
        { s with g_operation_count := (s.g_operation_count + 1) % UINT32_MOD },
        some
          { key_count := s.g_key_count
            keys :=
              (s.g_keys.take s.g_key_count) ++
                List.replicate (SR_MAX_KEYS - s.g_key_count) zeroKeyInfo }) := by
  unfold cmd_list_keys
  rw [if_neg (show ¬ (bigOutInput.paramTypes ≠ SINGLE_OUTPUT_PTYPES) from by
    simp [bigOutInput])]
  rw [if_neg (show ¬ (bigOutInput.outSize < SIZEOF_SR_KEY_LIST_RESULT) from by
    show ¬ (SIZEOF_SR_KEY_LIST_RESULT < SIZEOF_SR_KEY_LIST_RESULT)
    omega)]

/-- Success characterization of cmd_health_check with a valid request. -/
lemma cmd_health_check_good (s : SRState) (now : Nat) :
    cmd_health_check s { paramTypes := SINGLE_OUTPUT_PTYPES, outSize := SIZEOF_SR_HEALTH_RESULT } now =
      (TEE_SUCCESS,
        some
          { status := SR_SUCCESS
            active_sessions := s.g_session_count
            total_operations := s.g_operation_count
            storage_usage := (s.g_key_count * SIZEOF_SR_KEY_ENTRY) % UINT32_MOD
            uptime := now - s.g_start_time }) := by
  unfold cmd_health_check
  rw [if_neg (show ¬ ((SINGLE_OUTPUT_PTYPES : Nat) ≠ SINGLE_OUTPUT_PTYPES) from by simp)]
  rw [if_neg (show ¬ ((SIZEOF_SR_HEALTH_RESULT : Nat) < SIZEOF_SR_HEALTH_RESULT) from by omega)]

/-! Helper: rewriting a list slot with the value already there. -/

lemma list_set_getD_self {A : Type} :
    ∀ (l : List A) (i : Nat) (d : A), l.set i (l.getD i d) = l := by
  intro l
  induction l with
  | nil => intro i d; rfl
  | cons a t ih =>
      intro i d
      cases i with
      | zero => rfl
      | succ n =>
          show a :: t.set n (t.getD n d) = a :: t
          rw [ih n d]

/-! The generate_key run for the capacity property. -/

/-- Generation at capacity fails with STORAGE_NO_SPACE and changes
nothing. -/
lemma cmd_generate_key_full (s : SRState) (inp : GenerateInput) (o : GenOracle)
    (hpt : inp.paramTypes = GENERATE_KEY_PTYPES)
    (hfull : SR_MAX_KEYS ≤ s.g_key_count) :
    cmd_generate_key s inp o = (TEE_ERROR_STORAGE_NO_SPACE, s, none) := by
  unfold cmd_generate_key
  rw [if_neg (show ¬ (inp.paramTypes ≠ GENERATE_KEY_PTYPES) from by simp [hpt])]
  rw [if_pos hfull]

/-- A run of fresh well-formed generate_key calls with working oracles
succeeds call by call while capacity lasts. -/
lemma runGens_ok :
    ∀ (calls : List (List Nat × GenOracle)) (s : SRState),
      WFStore s →
      (∀ c ∈ calls, goodId c.1 ∧ ∃ kp, c.2.keygen = some kp) →
      (coresOf s ++ calls.map Prod.fst).Nodup →
      s.g_key_count + calls.length ≤ SR_MAX_KEYS →
      (runGens s calls).1 = List.replicate calls.length TEE_SUCCESS ∧
        WFStore (runGens s calls).2 ∧
        (runGens s calls).2.g_key_count = s.g_key_count + calls.length ∧
        coresOf (runGens s calls).2 = coresOf s ++ calls.map Prod.fst := by
  intro calls
  induction calls with
  | nil =>
      intro s hWF _ _ _
      exact ⟨rfl, hWF, by simp [runGens], by simp [runGens]⟩
  | cons c rest ih =>
      intro s hWF hcalls hnodup hcap
      obtain ⟨hid, kp, hkp⟩ := hcalls c (List.mem_cons_self c rest)
      have hfresh : c.1 ∉ coresOf s := by
        have hdisj := List.disjoint_of_nodup_append hnodup
        intro hmem
        exact hdisj hmem (by simp)
      have hcall := cmd_generate_key_good s c.1 c.2 kp hWF hid hkp hfresh
        (by have := hcap; simp at this ⊢; omega)
      have hstep : (cmd_generate_key s (genInput c.1) c.2).2.1 =
          { s with
              g_keys := s.g_keys ++ [(genEntry c.1 c.2 kp).info]
              g_key_storage := s.g_key_storage ++ [genEntry c.1 c.2 kp]
              g_key_count := s.g_key_count + 1
              g_operation_count := (s.g_operation_count + 1) % UINT32_MOD } := by
        rw [hcall]
      have hWF1 : WFStore (cmd_generate_key s (genInput c.1) c.2).2.1 :=
        WFStore_stepState s (SREvent.invokeGenerateKey (genInput c.1) c.2) hWF
      have hcores1 : coresOf (cmd_generate_key s (genInput c.1) c.2).2.1 =
          coresOf s ++ [c.1] := by
        rw [hstep]
        show (s.g_key_storage ++ [genEntry c.1 c.2 kp]).map keyCore = _
        rw [List.map_append]
        show coresOf s ++ [keyCore (genEntry c.1 c.2 kp)] = _
        rw [keyCore_genEntry c.1 c.2 kp hid]
      have hcount1 : (cmd_generate_key s (genInput c.1) c.2).2.1.g_key_count =
          s.g_key_count + 1 := by
        rw [hstep]
      have hrest := ih (cmd_generate_key s (genInput c.1) c.2).2.1 hWF1
        (fun x hx => hcalls x (List.mem_cons_of_mem c hx))
        (by
          rw [hcores1]
          have : coresOf s ++ [c.1] ++ rest.map Prod.fst =
              coresOf s ++ (c :: rest).map Prod.fst := by
            simp [List.append_assoc]
          rw [this]
          exact hnodup)
        (by rw [hcount1]; simp at hcap ⊢; omega)
      refine ⟨?_, hrest.2.1, ?_, ?_⟩
      · show (cmd_generate_key s (genInput c.1) c.2).1 ::
          (runGens (cmd_generate_key s (genInput c.1) c.2).2.1 rest).1 = _
        rw [hcall] at *
        show TEE_SUCCESS :: (runGens _ rest).1 = _
        rw [hrest.1]
        rfl
      · show (runGens (cmd_generate_key s (genInput c.1) c.2).2.1 rest).2.g_key_count = _
        rw [hrest.2.2.1, hcount1]
        simp
        omega
      · show coresOf (runGens (cmd_generate_key s (genInput c.1) c.2).2.1 rest).2 = _
        rw [hrest.2.2.2, hcores1]
        simp [List.append_assoc]

/-! The sign_message run for the usage-counter property. -/

lemma find_key_index_congr (s t : SRState) (mem : List Nat)
    (hc : s.g_key_count = t.g_key_count)
    (hmap : s.g_key_storage.map sr_key_entry_t.key_id =
      t.g_key_storage.map sr_key_entry_t.key_id) :
    find_key_index s mem = find_key_index t mem := by
  unfold find_key_index
  rw [hc]
  apply find_in_congr
  rw [List.map_take, List.map_take, hmap]

lemma runSigns_ok :
    ∀ (calls : List (SignOracle × List Nat)) (s : SRState) (id : List Nat) (i u : Nat),
      WFStore s → goodId id →
      find_key_index s (goodMem id) = Int.ofNat i →
      (s.g_key_storage.getD i zeroKeyEntry).info.status = SR_KEY_STATUS_ACTIVE →
      (s.g_key_storage.getD i zeroKeyEntry).key_type = SR_KEY_TYPE_ECDSA_SECP256K1 →
      (s.g_key_storage.getD i zeroKeyEntry).info.usage_count = u →
      (∀ c ∈ calls, ∃ sg, c.1.sig = some sg) →
      u + calls.length < UINT32_MOD →
      (runSigns s id calls).map Prod.fst = List.replicate calls.length TEE_SUCCESS ∧
        (runSigns s id calls).map
            (fun p => (p.2.g_key_storage.getD i zeroKeyEntry).info.last_used_time) =
          calls.map (fun c => c.1.now) ∧
        ((runSignsEnd s id calls).g_key_storage.getD i zeroKeyEntry).info.usage_count =
          u + calls.length := by
  intro calls
  induction calls with
  | nil =>
      intro s id i u hWF hgood hfind hstatus htype husage hsig hbound
      exact ⟨rfl, rfl, by simpa using husage⟩
  | cons c rest ih =>
      intro s id i u hWF hgood hfind hstatus htype husage hsig hbound
      obtain ⟨sg, hsg⟩ := hsig c (List.mem_cons_self c rest)
      have hidlen : id.length < SR_MAX_KEY_ID_SIZE := by have := hgood.2; omega
      have hibound : i < s.g_key_storage.length := by
        have hcore := find_key_index_core s id [] i hWF hgood.1 hidlen hfind
        exact hcore.1
      have hcall := cmd_sign_message_good s id c.2 c.1 i sg hgood hfind hstatus htype hsg
      have hstep : (cmd_sign_message s (signInput id c.2) c.1).2.1 =
          { s with
              g_key_storage :=
                s.g_key_storage.set i
                  { s.g_key_storage.getD i zeroKeyEntry with
                      info := signedInfo (s.g_key_storage.getD i zeroKeyEntry).info c.1 }
              g_keys :=
                s.g_keys.set i (signedInfo (s.g_key_storage.getD i zeroKeyEntry).info c.1)
              g_operation_count := (s.g_operation_count + 1) % UINT32_MOD } := by
        rw [hcall]
      have hget1 : ((cmd_sign_message s (signInput id c.2) c.1).2.1).g_key_storage.getD i
          zeroKeyEntry =
          { s.g_key_storage.getD i zeroKeyEntry with
              info := signedInfo (s.g_key_storage.getD i zeroKeyEntry).info c.1 } := by
        rw [hstep]
        exact list_getD_set_self s.g_key_storage i _ zeroKeyEntry hibound
      have hWF1 : WFStore (cmd_sign_message s (signInput id c.2) c.1).2.1 :=
        WFStore_stepState s (SREvent.invokeSignMessage (signInput id c.2) c.1) hWF
      have hfind1 : find_key_index (cmd_sign_message s (signInput id c.2) c.1).2.1
          (goodMem id) = Int.ofNat i := by
        rw [← hfind]
        apply find_key_index_congr
        · rw [hstep]
        · rw [hstep]
          show (s.g_key_storage.set i _).map sr_key_entry_t.key_id = _
          rw [List.map_set]
          show (s.g_key_storage.map sr_key_entry_t.key_id).set i
            ((s.g_key_storage.getD i zeroKeyEntry).key_id) = _
          have hmap : (s.g_key_storage.getD i zeroKeyEntry).key_id =
              (s.g_key_storage.map sr_key_entry_t.key_id).getD i
                zeroKeyEntry.key_id := by
            rw [List.getD_eq_getElem?_getD, List.getD_eq_getElem?_getD]
            simp [List.getElem?_map, List.getElem?_eq_getElem, hibound]
          rw [hmap, list_set_getD_self]
      have husage1 : (((cmd_sign_message s (signInput id c.2) c.1).2.1).g_key_storage.getD i
          zeroKeyEntry).info.usage_count = u + 1 := by
        rw [hget1]
        show ((s.g_key_storage.getD i zeroKeyEntry).info.usage_count + 1) % UINT32_MOD = u + 1
        rw [husage]
        apply Nat.mod_eq_of_lt
        simp at hbound
        omega
      have hstatus1 : (((cmd_sign_message s (signInput id c.2) c.1).2.1).g_key_storage.getD i
          zeroKeyEntry).info.status = SR_KEY_STATUS_ACTIVE := by
        rw [hget1]
        exact hstatus
      have htype1 : (((cmd_sign_message s (signInput id c.2) c.1).2.1).g_key_storage.getD i
          zeroKeyEntry).key_type = SR_KEY_TYPE_ECDSA_SECP256K1 := by
        rw [hget1]
        exact htype
      have hrest := ih (cmd_sign_message s (signInput id c.2) c.1).2.1 id i (u + 1)
        hWF1 hgood hfind1 hstatus1 htype1 husage1
        (fun x hx => hsig x (List.mem_cons_of_mem c hx))
        (by simp at hbound ⊢; omega)
      refine ⟨?_, ?_, ?_⟩
      · show (cmd_sign_message s (signInput id c.2) c.1).1 ::
          (runSigns (cmd_sign_message s (signInput id c.2) c.1).2.1 id rest).map Prod.fst = _
        rw [hrest.1]
        have hc1 : (cmd_sign_message s (signInput id c.2) c.1).1 = TEE_SUCCESS := by
          rw [hcall]
        rw [hc1]
        rfl
      · show (((cmd_sign_message s (signInput id c.2) c.1).2.1).g_key_storage.getD i
            zeroKeyEntry).info.last_used_time ::
          (runSigns (cmd_sign_message s (signInput id c.2) c.1).2.1 id rest).map _ = _
        rw [hrest.2.1, hget1]
        rfl
      · show ((runSignsEnd (cmd_sign_message s (signInput id c.2) c.1).2.1 id
            rest).g_key_storage.getD i zeroKeyEntry).info.usage_count = _
        rw [hrest.2.2]
        simp
        omega

/-! Support lemmas for the claim theorems. -/

/-- With 32-byte coordinates the public-key buffer is exactly X followed
by Y. -/
lemma genPub_eq (kp : KeypairBits) (hx : kp.pubX.length = 32)
    (hy : kp.pubY.length = 32) : genPub kp = kp.pubX ++ kp.pubY := by
  have hinner : storeBytes (List.replicate SR_SECP256K1_PUBLIC_KEY_SIZE 0) 0 kp.pubX =
      kp.pubX ++ List.replicate 32 0 := by
    unfold storeBytes
    rw [hx]
    rfl
  have houter : storeBytes (kp.pubX ++ List.replicate 32 0) 32 kp.pubY =
      kp.pubX ++ kp.pubY := by
    unfold storeBytes
    have ht : (kp.pubX ++ List.replicate 32 (0 : Nat)).take 32 = kp.pubX :=
      List.take_left' hx
    have hd : (kp.pubX ++ List.replicate 32 (0 : Nat)).drop (32 + kp.pubY.length) = [] := by
      apply List.drop_eq_nil_of_le
      simp [hx, hy]
    rw [ht, hd, List.append_nil]
  unfold genPub
  rw [hinner, houter]

/-- Truncating a derived address to 20 bytes changes nothing. -/
lemma derive_take (d : List Nat → Option (List Nat)) (pub : List Nat) :
    (derive_ethereum_address d pub).take SR_ETHEREUM_ADDRESS_SIZE =
      derive_ethereum_address d pub := by
  unfold derive_ethereum_address
  cases d pub with
  | some h => simp [List.take_take]
  | none => simp

/-- Full case analysis of cmd_generate_key: failure leaves everything
untouched; success validates the inputs, forces the ECDSA type, and
appends one record whose address is derived from the generated public
key. -/
lemma cmd_generate_key_full_cases (s : SRState) (inp : GenerateInput) (o : GenOracle) :
    ((cmd_generate_key s inp o).1 ≠ TEE_SUCCESS ∧
      (cmd_generate_key s inp o).2.1 = s ∧ (cmd_generate_key s inp o).2.2 = none) ∨
    ((cmd_generate_key s inp o).1 = TEE_SUCCESS ∧
      ¬ (inp.keyIdLen = 0 ∨ SR_MAX_KEY_ID_SIZE ≤ inp.keyIdLen) ∧
      s.g_key_count < SR_MAX_KEYS ∧
      inp.keyType = SR_KEY_TYPE_ECDSA_SECP256K1 ∧
      ∃ e2 : sr_key_entry_t,
        e2.key_id = storedKeyId inp.keyIdMem inp.keyIdLen ∧
        e2.key_type = inp.keyType ∧
        (∀ kp, o.keygen = some kp →
          e2.info.ethereum_address = derive_ethereum_address o.digest (genPub kp)) ∧
        (cmd_generate_key s inp o).2.2 =
          some (e2.info.ethereum_address.take SR_ETHEREUM_ADDRESS_SIZE) ∧
        (cmd_generate_key s inp o).2.1 =
          { s with
              g_keys := s.g_keys ++ [e2.info]
              g_key_storage := s.g_key_storage ++ [e2]
              g_key_count := s.g_key_count + 1
              g_operation_count := (s.g_operation_count + 1) % UINT32_MOD }) := by
  unfold cmd_generate_key
  split
  · left
    exact ⟨by simp [TEE_ERROR_BAD_PARAMETERS, TEE_SUCCESS], rfl, rfl⟩
  split
  next hcap0 =>
    left
    exact ⟨by simp [TEE_ERROR_STORAGE_NO_SPACE, TEE_SUCCESS], rfl, rfl⟩
  next hcap =>
  split
  next =>
    left
    exact ⟨by simp [TEE_ERROR_BAD_PARAMETERS, TEE_SUCCESS], rfl, rfl⟩
  next hlen =>
  split
  next =>
    left
    exact ⟨by simp [TEE_ERROR_BAD_PARAMETERS, TEE_SUCCESS], rfl, rfl⟩
  split
  next =>
    left
    exact ⟨by simp [SR_ERROR_KEY_ALREADY_EXISTS, TEE_SUCCESS], rfl, rfl⟩
  dsimp only
  split
  next hty0 =>
    rcases generate_key_finish_cases s inp (generate_secp256k1_keypair o _) with
      ⟨hc1, _, hout, hstate⟩ | ⟨hc1, hstate, hout⟩
    · right
      refine ⟨hc1, hlen, by omega, hty0,
        (generate_secp256k1_keypair o _).2, ?_, ?_, ?_, hout, hstate⟩
      · exact generate_secp256k1_keypair_key_id o _
      · rw [generate_secp256k1_keypair_key_type o _]
      · intro kp hkp
        rw [generate_secp256k1_keypair_some o _ kp hkp]
        rfl
    · left; exact ⟨hc1, hstate, hout⟩
  next hty0 =>
    split
    next hty1 =>
      left
      unfold generate_key_finish
      split
      · exact ⟨by simp [TEE_ERROR_NOT_IMPLEMENTED, TEE_SUCCESS], rfl, rfl⟩
      next hcond =>
        exact absurd (by simp [TEE_ERROR_NOT_IMPLEMENTED, TEE_SUCCESS]) hcond
    next hty1 =>
      left
      unfold generate_key_finish
      split
      · exact ⟨by simp [TEE_ERROR_NOT_SUPPORTED, TEE_SUCCESS], rfl, rfl⟩
      next hcond =>
        exact absurd (by simp [TEE_ERROR_NOT_SUPPORTED, TEE_SUCCESS]) hcond

/-- With o.sig = none the ECDSA signing helper returns the provider error
and the untouched result cell. -/
lemma sign_message_ecdsa_none (o : SignOracle) (ke : sr_key_entry_t)
    (mh : List Nat) (r : sr_signature_result_t) (h : o.sig = none) :
    sign_message_ecdsa o ke mh r = (o.sigErr, r) := by
  unfold sign_message_ecdsa
  rw [h]

/-- On a store whose live entries are all ECDSA, every sign_message result
comes from the validation chain or from the ECDSA signing path. -/
lemma cmd_sign_message_ecdsa_only (s : SRState) (inp : SignInput) (o : SignOracle)
    (hall : allEcdsa s) :
    (cmd_sign_message s inp o).1 = TEE_ERROR_BAD_PARAMETERS ∨
    (cmd_sign_message s inp o).1 = TEE_ERROR_SHORT_BUFFER ∨
    (cmd_sign_message s inp o).1 = SR_ERROR_KEY_NOT_FOUND ∨
    (cmd_sign_message s inp o).1 = TEE_ERROR_ACCESS_DENIED ∨
    ((cmd_sign_message s inp o).1 = TEE_SUCCESS ∧
      ((∃ sg, o.sig = some sg ∧
          (cmd_sign_message s inp o).2.2 =
            some
              { signature := storeBytes (List.replicate SR_SECP256K1_SIGNATURE_SIZE 0) 0 sg
                signature_len := sg.length
                recovery_id := 0 }) ∨
        (o.sig = none ∧ o.sigErr = TEE_SUCCESS))) ∨
    (o.sig = none ∧ (cmd_sign_message s inp o).1 = o.sigErr) := by
  unfold cmd_sign_message
  by_cases h1 : inp.paramTypes ≠ SIGN_MESSAGE_PTYPES
  · rw [if_pos h1]; exact Or.inl rfl
  rw [if_neg h1]
  by_cases h2 : inp.keyIdLen = 0 ∨ SR_MAX_KEY_ID_SIZE ≤ inp.keyIdLen
  · rw [if_pos h2]; exact Or.inl rfl
  rw [if_neg h2]
  by_cases h3 : inp.hashLen ≠ SR_MESSAGE_HASH_SIZE
  · rw [if_pos h3]; exact Or.inl rfl
  rw [if_neg h3]
  by_cases h4 : inp.outSize < SIZEOF_SR_SIGNATURE_RESULT
  · rw [if_pos h4]; exact Or.inr (Or.inl rfl)
  rw [if_neg h4]
  cases hf : find_key_index s inp.keyIdMem with
  | negSucc n =>
      dsimp only
      rw [if_pos (Int.negSucc_lt_zero n)]
      exact Or.inr (Or.inr (Or.inl rfl))
  | ofNat n =>
      dsimp only
      rw [if_neg (show ¬ ((Int.ofNat n : Int) < 0) from not_lt.mpr (Int.ofNat_nonneg n))]
      rw [show (Int.ofNat n).toNat = n from rfl]
      unfold sign_message_found
      by_cases h5 : (s.g_key_storage.getD n zeroKeyEntry).info.status ≠ SR_KEY_STATUS_ACTIVE
      · rw [if_pos h5]; exact Or.inr (Or.inr (Or.inr (Or.inl rfl)))
      rw [if_neg h5]
      have htype : (s.g_key_storage.getD n zeroKeyEntry).key_type =
          SR_KEY_TYPE_ECDSA_SECP256K1 := by
        rcases getD_mem_or_default s.g_key_storage n zeroKeyEntry with hm | hm
        · exact hall _ hm
        · rw [hm]; rfl
      rw [if_pos htype]
      cases ho : o.sig with
      | some sg =>
          rw [sign_message_ecdsa_some o _ _ _ sg ho]
          unfold sign_message_finish
          rw [if_pos rfl]
          exact Or.inr (Or.inr (Or.inr (Or.inr (Or.inl
            ⟨rfl, Or.inl ⟨sg, rfl, rfl⟩⟩))))
      | none =>
          rw [sign_message_ecdsa_none o _ _ _ ho]
          unfold sign_message_finish
          by_cases h6 : o.sigErr = TEE_SUCCESS
          · rw [if_pos (show ((o.sigErr, zeroSignatureResult) :
                Nat × sr_signature_result_t).1 = TEE_SUCCESS from h6)]
            exact Or.inr (Or.inr (Or.inr (Or.inr (Or.inl ⟨rfl, Or.inr ⟨rfl, h6⟩⟩))))
          · rw [if_neg (show ¬ (((o.sigErr, zeroSignatureResult) :
                Nat × sr_signature_result_t).1 = TEE_SUCCESS) from h6)]
            exact Or.inr (Or.inr (Or.inr (Or.inr (Or.inr ⟨rfl, rfl⟩))))

/-- Identical list_keys result for states differing only in secret
material. -/
lemma cmd_list_keys_noninterference (s t : SRState) (inp : OutBufInput)
    (h : eqExceptSecret s t) :
    (cmd_list_keys s inp).1 = (cmd_list_keys t inp).1 ∧
      (cmd_list_keys s inp).2.2 = (cmd_list_keys t inp).2.2 := by
  have h0 : { s with g_key_storage := s.g_key_storage.map scrubEntry } =
      { t with g_key_storage := t.g_key_storage.map scrubEntry } := h
  have hkeys : s.g_keys = t.g_keys := by
    have h1 := congrArg SRState.g_keys h0
    exact h1
  have hcount : s.g_key_count = t.g_key_count := by
    have h1 := congrArg SRState.g_key_count h0
    exact h1
  unfold cmd_list_keys
  by_cases h1 : inp.paramTypes ≠ SINGLE_OUTPUT_PTYPES
  · rw [if_pos h1, if_pos h1]; exact ⟨rfl, rfl⟩
  rw [if_neg h1, if_neg h1]
  by_cases h2 : inp.outSize < SIZEOF_SR_KEY_LIST_RESULT
  · rw [if_pos h2, if_pos h2]; exact ⟨rfl, rfl⟩
  rw [if_neg h2, if_neg h2]
  exact ⟨rfl, by rw [hkeys, hcount]⟩

/-- Slot i of the list_keys output array is the live metadata record at
slot i. -/
lemma list_keys_output_getD (s : SRState) (hWF : WFStore s) (i : Nat)
    (hi : i < s.g_key_count) :
    ((s.g_keys.take s.g_key_count) ++
        List.replicate (SR_MAX_KEYS - s.g_key_count) zeroKeyInfo).getD i zeroKeyInfo =
      s.g_keys.getD i zeroKeyInfo := by
  have hlen : s.g_keys.length = s.g_key_count := by
    rw [hWF.2.1, List.length_map, ← hWF.1]
  rw [← hlen, List.take_length]
  exact list_getD_append _ _ _ i (by omega)

/-- Whatever health record gets written reports the session counter. -/
lemma cmd_health_check_sessions (s : SRState) (inp : OutBufInput) (now : Nat)
    (r : sr_health_result_t) (h : (cmd_health_check s inp now).2 = some r) :
    r.active_sessions = s.g_session_count := by
  unfold cmd_health_check at h
  by_cases h1 : inp.paramTypes ≠ SINGLE_OUTPUT_PTYPES
  · rw [if_pos h1] at h
    exact absurd h (by simp)
  rw [if_neg h1] at h
  by_cases h2 : inp.outSize < SIZEOF_SR_HEALTH_RESULT
  · rw [if_pos h2] at h
    exact absurd h (by simp)
  rw [if_neg h2] at h
  have h3 := Option.some.inj h
  rw [← h3]


/-! Claim theorems. -/

/-- Writing a buffer of exactly n bytes at offset 0 of a zeroed n-byte
buffer yields the written bytes. -/
lemma storeBytes_zero_all (src : List Nat) (n : Nat) (h : src.length = n) :
    storeBytes (List.replicate n 0) 0 src = src := by
  unfold storeBytes
  rw [List.take_zero, List.drop_eq_nil_of_le (by rw [List.length_replicate]; omega)]
  simp

/-- C1: for every successful generate_key invocation whose keypair
generation produced 32-byte public coordinates and whose digest primitive
returned a 32-byte digest over the 64-byte uncompressed public key (X
followed by Y), the address written to the output parameter is exactly 20
bytes and equals bytes 12..31 of that digest. -/
theorem C1_generate_address (s : SRState) (inp : GenerateInput) (o : GenOracle)
    (kp : KeypairBits) (h : List Nat)
    (hkp : o.keygen = some kp)
    (hx : kp.pubX.length = 32) (hy : kp.pubY.length = 32)
    (hd : o.digest (kp.pubX ++ kp.pubY) = some h) (hh : h.length = 32)
    (hok : (cmd_generate_key s inp o).1 = TEE_SUCCESS) :
    ∃ addr : List Nat,
      (cmd_generate_key s inp o).2.2 = some addr ∧
      addr.length = SR_ETHEREUM_ADDRESS_SIZE ∧
      addr = (h.drop 12).take SR_ETHEREUM_ADDRESS_SIZE := by
  rcases cmd_generate_key_full_cases s inp o with
    ⟨hne, _, _⟩ | ⟨_, _, _, _, e2, _, _, haddr, hout, _⟩
  · exact absurd hok hne
  · have haddr2 : e2.info.ethereum_address =
        (h.drop 12).take SR_ETHEREUM_ADDRESS_SIZE := by
      rw [haddr kp hkp, genPub_eq kp hx hy]
      unfold derive_ethereum_address
      rw [hd]
    have hlen2 : ((h.drop 12).take SR_ETHEREUM_ADDRESS_SIZE).length =
        SR_ETHEREUM_ADDRESS_SIZE := by
      rw [List.length_take, List.length_drop, hh]
      decide
    refine ⟨(h.drop 12).take SR_ETHEREUM_ADDRESS_SIZE, ?_, hlen2, rfl⟩
    rw [hout, haddr2, List.take_take, Nat.min_self]

/-- C1 witness: the theorem applied to the empty store, a request for
identifier byte 1 and the mock oracles, whose digest value is the list
1..32. -/
theorem C1_generate_address_witness :
    ∃ addr : List Nat,
      (cmd_generate_key (TA_CreateEntryPoint 0) (genInput [1]) mockGen).2.2 = some addr ∧
      addr.length = SR_ETHEREUM_ADDRESS_SIZE ∧
      addr = ((((List.range 32).map (fun k => k + 1)).drop 12).take
        SR_ETHEREUM_ADDRESS_SIZE) :=
  C1_generate_address (TA_CreateEntryPoint 0) (genInput [1]) mockGen
    { priv := List.replicate 32 7, pubX := List.replicate 32 1, pubY := List.replicate 32 2 }
    ((List.range 32).map (fun k => k + 1))
    rfl rfl rfl rfl rfl (by decide)

/-- C3 counterexample: on a full store a generate_key request whose
identifier is already live fails with TEE_ERROR_STORAGE_NO_SPACE, not with
SR_ERROR_KEY_ALREADY_EXISTS, because the capacity check precedes the
duplicate check; so the claimed unconditional AlreadyExists outcome is
refuted. -/
theorem C3_counterexample :
    0 ≤ find_key_index fullState (goodMem [1]) ∧
    cmd_generate_key fullState (genInput [1]) mockGen =
      (TEE_ERROR_STORAGE_NO_SPACE, fullState, none) ∧
    TEE_ERROR_STORAGE_NO_SPACE ≠ SR_ERROR_KEY_ALREADY_EXISTS :=
  ⟨by decide, by decide, by decide⟩

/-- C3 amended: when the store still has free capacity, a generate_key
request with the expected parameter shape, a valid identifier length, a
valid key type and an identifier already present among the live records
fails with SR_ERROR_KEY_ALREADY_EXISTS and returns the store unchanged. -/
theorem C3_amended (s : SRState) (inp : GenerateInput) (o : GenOracle)
    (hpt : inp.paramTypes = GENERATE_KEY_PTYPES)
    (hcap : s.g_key_count < SR_MAX_KEYS)
    (hlen : ¬ (inp.keyIdLen = 0 ∨ SR_MAX_KEY_ID_SIZE ≤ inp.keyIdLen))
    (hty : inp.keyType < SR_KEY_TYPE_MAX)
    (hdup : 0 ≤ find_key_index s inp.keyIdMem) :
    cmd_generate_key s inp o = (SR_ERROR_KEY_ALREADY_EXISTS, s, none) := by
  unfold cmd_generate_key
  rw [if_neg (show ¬ (inp.paramTypes ≠ GENERATE_KEY_PTYPES) from by simp [hpt])]
  rw [if_neg (show ¬ (SR_MAX_KEYS ≤ s.g_key_count) from by omega)]
  rw [if_neg hlen]
  rw [if_neg (show ¬ (SR_KEY_TYPE_MAX ≤ inp.keyType) from by omega)]
  rw [if_pos hdup]

/-- C3 amended witness: a duplicate generate on the one-key store. -/
theorem C3_amended_witness :
    cmd_generate_key oneKeyState (genInput [1]) mockGen =
      (SR_ERROR_KEY_ALREADY_EXISTS, oneKeyState, none) :=
  C3_amended oneKeyState (genInput [1]) mockGen rfl (by decide) (by decide)
    (by decide) (by decide)

/-- C4: from the empty store, sixteen generate_key calls with distinct
valid identifiers and working providers all succeed; the store then holds
sixteen records and a seventeenth call fails with
TEE_ERROR_STORAGE_NO_SPACE leaving the store exactly as it was. -/
theorem C4_capacity (now0 : Nat) (calls : List (List Nat × GenOracle))
    (c17 : List Nat × GenOracle)
    (hlen : calls.length = SR_MAX_KEYS)
    (hgood : ∀ c ∈ calls ++ [c17], goodId c.1 ∧ c.2.keygen.isSome = true)
    (hdistinct : ((calls ++ [c17]).map Prod.fst).Nodup) :
    (runGens (TA_CreateEntryPoint now0) calls).1 =
      List.replicate SR_MAX_KEYS TEE_SUCCESS ∧
    (runGens (TA_CreateEntryPoint now0) calls).2.g_key_count = SR_MAX_KEYS ∧
    cmd_generate_key (runGens (TA_CreateEntryPoint now0) calls).2 (genInput c17.1) c17.2 =
      (TEE_ERROR_STORAGE_NO_SPACE, (runGens (TA_CreateEntryPoint now0) calls).2, none) := by
  have hmap : (calls ++ [c17]).map Prod.fst = calls.map Prod.fst ++ [c17.1] := by
    rw [List.map_append]
    rfl
  have hnodup : (coresOf (TA_CreateEntryPoint now0) ++ calls.map Prod.fst).Nodup := by
    show ([] ++ calls.map Prod.fst).Nodup
    rw [List.nil_append]
    rw [hmap] at hdistinct
    exact hdistinct.of_append_left
  have h := runGens_ok calls (TA_CreateEntryPoint now0) (WFStore_init now0)
    (fun c hc => ⟨(hgood c (List.mem_append_left _ hc)).1,
      Option.isSome_iff_exists.mp (hgood c (List.mem_append_left _ hc)).2⟩)
    hnodup
    (by show 0 + calls.length ≤ SR_MAX_KEYS; omega)
  refine ⟨by rw [h.1, hlen], ?_, ?_⟩
  · rw [h.2.2.1]
    show 0 + calls.length = SR_MAX_KEYS
    omega
  · apply cmd_generate_key_full
    · rfl
    · rw [h.2.2.1]
      show SR_MAX_KEYS ≤ 0 + calls.length
      omega

/-- C4 witness: the sixteen mock calls with identifiers 1..16 and the
seventeenth call with identifier 17. -/
theorem C4_capacity_witness :
    (runGens (TA_CreateEntryPoint 0) fullGenCalls).1 =
      List.replicate SR_MAX_KEYS TEE_SUCCESS ∧
    fullState.g_key_count = SR_MAX_KEYS ∧
    cmd_generate_key fullState (genInput [17]) mockGen =
      (TEE_ERROR_STORAGE_NO_SPACE, fullState, none) := by
  have h := C4_capacity 0 fullGenCalls ([17], mockGen) (by decide) (by decide) (by decide)
  exact ⟨h.1, h.2.1, h.2.2⟩

/-- C5: sign_message with a hash whose declared length is not 32 fails
with TEE_ERROR_BAD_PARAMETERS for every oracle, so the primitive provider
cannot influence the outcome; a lookup miss fails with
SR_ERROR_KEY_NOT_FOUND; a lookup hit on a record whose status is not
Active fails with TEE_ERROR_ACCESS_DENIED; each of these failures returns
the state unchanged, so usage_count and last_used_time of every record
are untouched. -/
theorem C5_sign_failures (s : SRState) :
    (∀ (inp : SignInput) (o : SignOracle), inp.hashLen ≠ SR_MESSAGE_HASH_SIZE →
      cmd_sign_message s inp o = (TEE_ERROR_BAD_PARAMETERS, s, none)) ∧
    (∀ (inp : SignInput) (o : SignOracle),
      inp.paramTypes = SIGN_MESSAGE_PTYPES →
      ¬ (inp.keyIdLen = 0 ∨ SR_MAX_KEY_ID_SIZE ≤ inp.keyIdLen) →
      inp.hashLen = SR_MESSAGE_HASH_SIZE →
      SIZEOF_SR_SIGNATURE_RESULT ≤ inp.outSize →
      find_key_index s inp.keyIdMem < 0 →
      cmd_sign_message s inp o = (SR_ERROR_KEY_NOT_FOUND, s, none)) ∧
    (∀ (inp : SignInput) (o : SignOracle) (i : Nat),
      inp.paramTypes = SIGN_MESSAGE_PTYPES →
      ¬ (inp.keyIdLen = 0 ∨ SR_MAX_KEY_ID_SIZE ≤ inp.keyIdLen) →
      inp.hashLen = SR_MESSAGE_HASH_SIZE →
      SIZEOF_SR_SIGNATURE_RESULT ≤ inp.outSize →
      find_key_index s inp.keyIdMem = Int.ofNat i →
      (s.g_key_storage.getD i zeroKeyEntry).info.status ≠ SR_KEY_STATUS_ACTIVE →
      cmd_sign_message s inp o = (TEE_ERROR_ACCESS_DENIED, s, none)) :=
  ⟨fun inp o hh => cmd_sign_message_badhash s inp o hh,
   fun inp o hpt hl hh hsz hfind => cmd_sign_message_notfound s inp o hpt hl hh hsz hfind,
   fun inp o i hpt hl hh hsz hfind hst =>
     cmd_sign_message_denied s inp o i hpt hl hh hsz hfind hst⟩

/-- C5 witness: the three failure paths exercised on concrete stores: a
31-byte hash on the empty store, a missing identifier on the one-key
store, and an Inactive record. -/
theorem C5_sign_failures_witness :
    cmd_sign_message (TA_CreateEntryPoint 0)
        { paramTypes := SIGN_MESSAGE_PTYPES
          keyIdMem := goodMem [1]
          keyIdLen := 2
          hashMem := []
          hashLen := 31
          outSize := SIZEOF_SR_SIGNATURE_RESULT }
        (mockSigner 3) =
      (TEE_ERROR_BAD_PARAMETERS, TA_CreateEntryPoint 0, none) ∧
    cmd_sign_message oneKeyState (signInput [2] (List.replicate 32 0)) (mockSigner 3) =
      (SR_ERROR_KEY_NOT_FOUND, oneKeyState, none) ∧
    cmd_sign_message inactiveState (signInput [5] (List.replicate 32 0)) (mockSigner 3) =
      (TEE_ERROR_ACCESS_DENIED, inactiveState, none) :=
  ⟨(C5_sign_failures (TA_CreateEntryPoint 0)).1 _ _ (by decide),
   (C5_sign_failures oneKeyState).2.1 _ _ (by decide) (by decide) (by decide)
     (by decide) (by decide),
   (C5_sign_failures inactiveState).2.2 _ _ 0 (by decide) (by decide) (by decide)
     (by decide) (by decide) (by decide)⟩


/-- C2: after a generate for identifier A followed, possibly with other
events in between, by a generate for identifier B, list_keys on any later
state reports the live count, holds the record created for A at the slot
where A was appended and the record created for B at the later slot where
B was appended; and two states that differ only in stored secret material
produce identical list_keys results, so no output field depends on a
private-key byte. -/
theorem C2_list_keys_order (now0 : Nat) (evs1 evs2 evs3 : List SREvent)
    (idA idB : List Nat) (oA oB : GenOracle) (kpA kpB : KeypairBits)
    (sA sB sF : SRState)
    (hsA : sA = runEvents (TA_CreateEntryPoint now0) evs1)
    (hsB : sB = runEvents (stepState sA (SREvent.invokeGenerateKey (genInput idA) oA)) evs2)
    (hsF : sF = runEvents (stepState sB (SREvent.invokeGenerateKey (genInput idB) oB)) evs3)
    (hgA : goodId idA) (hgB : goodId idB)
    (hkA : oA.keygen = some kpA) (hkB : oB.keygen = some kpB)
    (hfA : idA ∉ coresOf sA) (hfB : idB ∉ coresOf sB)
    (hcA : sA.g_key_count < SR_MAX_KEYS) (hcB : sB.g_key_count < SR_MAX_KEYS) :
    (cmd_generate_key sA (genInput idA) oA).1 = TEE_SUCCESS ∧
    (cmd_generate_key sB (genInput idB) oB).1 = TEE_SUCCESS ∧
    sA.g_key_count < sB.g_key_count ∧
    sB.g_key_count < sF.g_key_count ∧
    (cmd_list_keys sF bigOutInput).1 = TEE_SUCCESS ∧
    (cmd_list_keys sF bigOutInput).2.2 =
      some
        { key_count := sF.g_key_count
          keys := sF.g_keys.take sF.g_key_count ++
            List.replicate (SR_MAX_KEYS - sF.g_key_count) zeroKeyInfo } ∧
    ((sF.g_keys.take sF.g_key_count ++
        List.replicate (SR_MAX_KEYS - sF.g_key_count) zeroKeyInfo).getD
          sA.g_key_count zeroKeyInfo).key_id = storedIdOf idA ∧
    ((sF.g_keys.take sF.g_key_count ++
        List.replicate (SR_MAX_KEYS - sF.g_key_count) zeroKeyInfo).getD
          sB.g_key_count zeroKeyInfo).key_id = storedIdOf idB ∧
    (∀ (s t : SRState) (inp : OutBufInput), eqExceptSecret s t →
      (cmd_list_keys s inp).1 = (cmd_list_keys t inp).1 ∧
      (cmd_list_keys s inp).2.2 = (cmd_list_keys t inp).2.2) := by
  have hWFA : WFStore sA := by
    rw [hsA]
    exact WFStore_runEvents _ evs1 (WFStore_init now0)
  have hGA := cmd_generate_key_good sA idA oA kpA hWFA hgA hkA hfA hcA
  have hstepA : stepState sA (SREvent.invokeGenerateKey (genInput idA) oA) =
      { sA with
          g_keys := sA.g_keys ++ [(genEntry idA oA kpA).info]
          g_key_storage := sA.g_key_storage ++ [genEntry idA oA kpA]
          g_key_count := sA.g_key_count + 1
          g_operation_count := (sA.g_operation_count + 1) % UINT32_MOD } := by
    show (cmd_generate_key sA (genInput idA) oA).2.1 = _
    rw [hGA]
  have hWFA1 : WFStore (stepState sA (SREvent.invokeGenerateKey (genInput idA) oA)) :=
    WFStore_stepState sA _ hWFA
  have hWFB : WFStore sB := by
    rw [hsB]
    exact WFStore_runEvents _ evs2 hWFA1
  have hGB := cmd_generate_key_good sB idB oB kpB hWFB hgB hkB hfB hcB
  have hstepB : stepState sB (SREvent.invokeGenerateKey (genInput idB) oB) =
      { sB with
          g_keys := sB.g_keys ++ [(genEntry idB oB kpB).info]
          g_key_storage := sB.g_key_storage ++ [genEntry idB oB kpB]
          g_key_count := sB.g_key_count + 1
          g_operation_count := (sB.g_operation_count + 1) % UINT32_MOD } := by
    show (cmd_generate_key sB (genInput idB) oB).2.1 = _
    rw [hGB]
  have hWFB1 : WFStore (stepState sB (SREvent.invokeGenerateKey (genInput idB) oB)) :=
    WFStore_stepState sB _ hWFB
  have hWFF : WFStore sF := by
    rw [hsF]
    exact WFStore_runEvents _ evs3 hWFB1
  have hcntA1 : (stepState sA (SREvent.invokeGenerateKey (genInput idA) oA)).g_key_count =
      sA.g_key_count + 1 := by
    rw [hstepA]
  have hcntB1 : (stepState sB (SREvent.invokeGenerateKey (genInput idB) oB)).g_key_count =
      sB.g_key_count + 1 := by
    rw [hstepB]
  have hltAB : sA.g_key_count < sB.g_key_count := by
    have hm := runEvents_count_mono
      (stepState sA (SREvent.invokeGenerateKey (genInput idA) oA)) evs2
    rw [← hsB, hcntA1] at hm
    omega
  have hltBF : sB.g_key_count < sF.g_key_count := by
    have hm := runEvents_count_mono
      (stepState sB (SREvent.invokeGenerateKey (genInput idB) oB)) evs3
    rw [← hsF, hcntB1] at hm
    omega
  have hkeysA : sA.g_keys.length = sA.g_key_count := by
    rw [hWFA.2.1, List.length_map, ← hWFA.1]
  have hkeysB : sB.g_keys.length = sB.g_key_count := by
    rw [hWFB.2.1, List.length_map, ← hWFB.1]
  have hslotA1 : (stepState sA (SREvent.invokeGenerateKey (genInput idA) oA)).g_keys.getD
      sA.g_key_count zeroKeyInfo = (genEntry idA oA kpA).info := by
    rw [hstepA]
    show (sA.g_keys ++ [(genEntry idA oA kpA).info]).getD sA.g_key_count zeroKeyInfo = _
    rw [← hkeysA]
    exact list_getD_append_self sA.g_keys _ zeroKeyInfo
  have hslotB1 : (stepState sB (SREvent.invokeGenerateKey (genInput idB) oB)).g_keys.getD
      sB.g_key_count zeroKeyInfo = (genEntry idB oB kpB).info := by
    rw [hstepB]
    show (sB.g_keys ++ [(genEntry idB oB kpB).info]).getD sB.g_key_count zeroKeyInfo = _
    rw [← hkeysB]
    exact list_getD_append_self sB.g_keys _ zeroKeyInfo
  have hstabA : stableView (sF.g_keys.getD sA.g_key_count zeroKeyInfo) =
      stableView ((genEntry idA oA kpA).info) := by
    calc stableView (sF.g_keys.getD sA.g_key_count zeroKeyInfo)
        = stableView ((stepState sB (SREvent.invokeGenerateKey (genInput idB) oB)).g_keys.getD
            sA.g_key_count zeroKeyInfo) := by
          rw [hsF]
          exact runEvents_stable _ evs3 hWFB1 sA.g_key_count (by rw [hcntB1]; omega)
      _ = stableView (sB.g_keys.getD sA.g_key_count zeroKeyInfo) :=
          stepState_stable sB _ hWFB sA.g_key_count (by omega)
      _ = stableView ((stepState sA (SREvent.invokeGenerateKey (genInput idA) oA)).g_keys.getD
            sA.g_key_count zeroKeyInfo) := by
          rw [hsB]
          exact runEvents_stable _ evs2 hWFA1 sA.g_key_count (by rw [hcntA1]; omega)
      _ = stableView ((genEntry idA oA kpA).info) := by
          rw [hslotA1]
  have hstabB : stableView (sF.g_keys.getD sB.g_key_count zeroKeyInfo) =
      stableView ((genEntry idB oB kpB).info) := by
    calc stableView (sF.g_keys.getD sB.g_key_count zeroKeyInfo)
        = stableView ((stepState sB (SREvent.invokeGenerateKey (genInput idB) oB)).g_keys.getD
            sB.g_key_count zeroKeyInfo) := by
          rw [hsF]
          exact runEvents_stable _ evs3 hWFB1 sB.g_key_count (by rw [hcntB1]; omega)
      _ = stableView ((genEntry idB oB kpB).info) := by
          rw [hslotB1]
  have houtA : (sF.g_keys.take sF.g_key_count ++
      List.replicate (SR_MAX_KEYS - sF.g_key_count) zeroKeyInfo).getD
        sA.g_key_count zeroKeyInfo = sF.g_keys.getD sA.g_key_count zeroKeyInfo :=
    list_keys_output_getD sF hWFF sA.g_key_count (by omega)
  have houtB : (sF.g_keys.take sF.g_key_count ++
      List.replicate (SR_MAX_KEYS - sF.g_key_count) zeroKeyInfo).getD
        sB.g_key_count zeroKeyInfo = sF.g_keys.getD sB.g_key_count zeroKeyInfo :=
    list_keys_output_getD sF hWFF sB.g_key_count (by omega)
  have hkidA : (sF.g_keys.getD sA.g_key_count zeroKeyInfo).key_id = storedIdOf idA := by
    have h1 := congrArg (fun p : List Nat × Nat × Nat × Nat × List Nat => p.1) hstabA
    exact h1
  have hkidB : (sF.g_keys.getD sB.g_key_count zeroKeyInfo).key_id = storedIdOf idB := by
    have h1 := congrArg (fun p : List Nat × Nat × Nat × Nat × List Nat => p.1) hstabB
    exact h1
  refine ⟨by rw [hGA], by rw [hGB], hltAB, hltBF, ?_, ?_, ?_, ?_,
    fun s t inp h => cmd_list_keys_noninterference s t inp h⟩
  · rw [cmd_list_keys_good sF]
  · rw [cmd_list_keys_good sF]
  · rw [houtA]
    exact hkidA
  · rw [houtB]
    exact hkidB

/-- C2 witness: identifier byte 1 generated into the empty store, then
identifier byte 2, with no events in between; the noninterference
conjunct applied to the one-key store and its scrubbed twin. -/
theorem C2_list_keys_order_witness :
    (cmd_generate_key (TA_CreateEntryPoint 0) (genInput [1]) mockGen).1 = TEE_SUCCESS ∧
    (cmd_generate_key oneKeyState (genInput [2]) mockGen).1 = TEE_SUCCESS ∧
    (TA_CreateEntryPoint 0).g_key_count < oneKeyState.g_key_count ∧
    (cmd_list_keys oneKeyState bigOutInput).2.2 =
      (cmd_list_keys
        { oneKeyState with g_key_storage := oneKeyState.g_key_storage.map scrubEntry }
        bigOutInput).2.2 := by
  have h := C2_list_keys_order 0 [] [] [] [1] [2] mockGen mockGen
    { priv := List.replicate 32 7, pubX := List.replicate 32 1, pubY := List.replicate 32 2 }
    { priv := List.replicate 32 7, pubX := List.replicate 32 1, pubY := List.replicate 32 2 }
    (TA_CreateEntryPoint 0) oneKeyState
    (stepState oneKeyState (SREvent.invokeGenerateKey (genInput [2]) mockGen))
    rfl rfl rfl (by decide) (by decide) rfl rfl (by decide) (by decide)
    (by decide) (by decide)
  exact ⟨h.1, h.2.1, h.2.2.1,
    (h.2.2.2.2.2.2.2.2 oneKeyState _ bigOutInput (by decide)).2⟩

/-- C6: starting from a live Active ECDSA record with usage_count 0, a
run of N successful sign_message calls on that identifier leaves its
usage_count at N, each call stamps last_used_time with the time sampled
during that call, and the observed last_used_time sequence is
monotonically non-decreasing whenever the sampled times are. -/
theorem C6_usage_counter (s : SRState) (id : List Nat) (i : Nat)
    (calls : List (SignOracle × List Nat))
    (hWF : WFStore s) (hgood : goodId id)
    (hfind : find_key_index s (goodMem id) = Int.ofNat i)
    (hstatus : (s.g_key_storage.getD i zeroKeyEntry).info.status = SR_KEY_STATUS_ACTIVE)
    (htype : (s.g_key_storage.getD i zeroKeyEntry).key_type = SR_KEY_TYPE_ECDSA_SECP256K1)
    (hzero : (s.g_key_storage.getD i zeroKeyEntry).info.usage_count = 0)
    (hsig : ∀ c ∈ calls, c.1.sig.isSome = true)
    (hbound : calls.length < UINT32_MOD) :
    (runSigns s id calls).map Prod.fst = List.replicate calls.length TEE_SUCCESS ∧
    ((runSignsEnd s id calls).g_key_storage.getD i zeroKeyEntry).info.usage_count =
      calls.length ∧
    (runSigns s id calls).map
        (fun p => (p.2.g_key_storage.getD i zeroKeyEntry).info.last_used_time) =
      calls.map (fun c => c.1.now) ∧
    (List.Chain' (fun a b => a ≤ b) (calls.map (fun c => c.1.now)) →
      List.Chain' (fun a b => a ≤ b) ((runSigns s id calls).map
        (fun p => (p.2.g_key_storage.getD i zeroKeyEntry).info.last_used_time))) := by
  have h := runSigns_ok calls s id i 0 hWF hgood hfind hstatus htype hzero
    (fun c hc => Option.isSome_iff_exists.mp (hsig c hc)) (by omega)
  refine ⟨h.1, ?_, h.2.1, fun hc => by rw [h.2.1]; exact hc⟩
  rw [h.2.2]
  omega

/-- C6 witness: two successful signs on the one-key store with times 5
then 7; the counter ends at 2, the observed times are 5 then 7 and they
are non-decreasing. -/
theorem C6_usage_counter_witness :
    ((runSignsEnd oneKeyState [1]
        [(mockSigner 5, List.replicate 32 1),
         (mockSigner 7, List.replicate 32 2)]).g_key_storage.getD
        0 zeroKeyEntry).info.usage_count = 2 ∧
    (runSigns oneKeyState [1]
        [(mockSigner 5, List.replicate 32 1),
         (mockSigner 7, List.replicate 32 2)]).map
        (fun p => (p.2.g_key_storage.getD 0 zeroKeyEntry).info.last_used_time) = [5, 7] ∧
    List.Chain' (fun a b => a ≤ b)
      ((runSigns oneKeyState [1]
          [(mockSigner 5, List.replicate 32 1),
           (mockSigner 7, List.replicate 32 2)]).map
        (fun p => (p.2.g_key_storage.getD 0 zeroKeyEntry).info.last_used_time)) := by
  have h := C6_usage_counter oneKeyState [1] 0
    [(mockSigner 5, List.replicate 32 1), (mockSigner 7, List.replicate 32 2)]
    (by decide) (by decide) (by decide) (by decide) (by decide) (by decide)
    (by decide) (by decide)
  exact ⟨h.2.1, h.2.2.1, h.2.2.2 (by
    show List.Chain' (fun a b => a ≤ b) [5, 7]
    exact List.chain'_cons.mpr ⟨by omega, List.chain'_singleton 7⟩)⟩

/-- C7: for every key generated from a fresh valid identifier with a
keypair of 32-byte coordinates, the generate call succeeds and returns
the derived address, a subsequent get_public_key on the new store
succeeds, returns that same address together with the stored public key,
and the documented derivation recomputed over the returned public key
equals the address returned by generate. -/
theorem C7_roundtrip (s : SRState) (id : List Nat) (o : GenOracle) (kp : KeypairBits)
    (hWF : WFStore s) (hgood : goodId id) (hkp : o.keygen = some kp)
    (hx : kp.pubX.length = 32) (hy : kp.pubY.length = 32)
    (hfresh : id ∉ coresOf s) (hcap : s.g_key_count < SR_MAX_KEYS) :
    (cmd_generate_key s (genInput id) o).1 = TEE_SUCCESS ∧
    (cmd_generate_key s (genInput id) o).2.2 =
      some (derive_ethereum_address o.digest (kp.pubX ++ kp.pubY)) ∧
    (cmd_get_public_key (cmd_generate_key s (genInput id) o).2.1 (getPubInput id)).1 =
      TEE_SUCCESS ∧
    ∃ r : sr_public_key_result_t,
      (cmd_get_public_key (cmd_generate_key s (genInput id) o).2.1 (getPubInput id)).2.2 =
        some r ∧
      r.public_key.take r.public_key_len = kp.pubX ++ kp.pubY ∧
      r.ethereum_address = derive_ethereum_address o.digest (kp.pubX ++ kp.pubY) ∧
      derive_ethereum_address o.digest (r.public_key.take r.public_key_len) =
        derive_ethereum_address o.digest (kp.pubX ++ kp.pubY) := by
  have hG := cmd_generate_key_good s id o kp hWF hgood hkp hfresh hcap
  have ht : (cmd_generate_key s (genInput id) o).2.1 =
      { s with
          g_keys := s.g_keys ++ [(genEntry id o kp).info]
          g_key_storage := s.g_key_storage ++ [genEntry id o kp]
          g_key_count := s.g_key_count + 1
          g_operation_count := (s.g_operation_count + 1) % UINT32_MOD } := by
    rw [hG]
  have hfind := find_key_index_append_new s id o kp hWF hgood hfresh
  have hsl : s.g_key_count = s.g_key_storage.length := hWF.1
  have hE : (s.g_key_storage ++ [genEntry id o kp]).getD s.g_key_count zeroKeyEntry =
      genEntry id o kp := by
    rw [hsl]
    exact list_getD_append_self s.g_key_storage _ zeroKeyEntry
  have hE2 : (({ s with
      g_keys := s.g_keys ++ [(genEntry id o kp).info]
      g_key_storage := s.g_key_storage ++ [genEntry id o kp]
      g_key_count := s.g_key_count + 1
      g_operation_count := (s.g_operation_count + 1) % UINT32_MOD } : SRState).g_key_storage).getD
      s.g_key_count zeroKeyEntry = genEntry id o kp := hE
  have hP := cmd_get_public_key_good
    { s with
        g_keys := s.g_keys ++ [(genEntry id o kp).info]
        g_key_storage := s.g_key_storage ++ [genEntry id o kp]
        g_key_count := s.g_key_count + 1
        g_operation_count := (s.g_operation_count + 1) % UINT32_MOD }
    id s.g_key_count hgood hfind
  rw [hE2] at hP
  have haddr : (genEntry id o kp).info.ethereum_address.take SR_ETHEREUM_ADDRESS_SIZE =
      derive_ethereum_address o.digest (kp.pubX ++ kp.pubY) := by
    show (derive_ethereum_address o.digest (genPub kp)).take SR_ETHEREUM_ADDRESS_SIZE = _
    rw [derive_take, genPub_eq kp hx hy]
  have hlenpub : (kp.pubX ++ kp.pubY).length = SR_SECP256K1_PUBLIC_KEY_SIZE := by
    rw [List.length_append, hx, hy]
    decide
  have hgp : (genEntry id o kp).public_key.take (genEntry id o kp).public_key_len =
      kp.pubX ++ kp.pubY := by
    show (genPub kp).take (kp.pubX.length + kp.pubY.length) = kp.pubX ++ kp.pubY
    rw [genPub_eq kp hx hy, ← List.length_append, List.take_length]
  have hr1 : storeBytes (List.replicate SR_SECP256K1_PUBLIC_KEY_SIZE 0) 0
      ((genEntry id o kp).public_key.take (genEntry id o kp).public_key_len) =
      kp.pubX ++ kp.pubY := by
    rw [hgp]
    exact storeBytes_zero_all _ _ hlenpub
  have hrtake : (storeBytes (List.replicate SR_SECP256K1_PUBLIC_KEY_SIZE 0) 0
      ((genEntry id o kp).public_key.take (genEntry id o kp).public_key_len)).take
      (genEntry id o kp).public_key_len = kp.pubX ++ kp.pubY := by
    rw [hr1]
    show (kp.pubX ++ kp.pubY).take (kp.pubX.length + kp.pubY.length) = kp.pubX ++ kp.pubY
    rw [← List.length_append, List.take_length]
  refine ⟨by rw [hG], ?_, ?_, ?_⟩
  · rw [hG]
    show some ((genEntry id o kp).info.ethereum_address.take SR_ETHEREUM_ADDRESS_SIZE) =
      some (derive_ethereum_address o.digest (kp.pubX ++ kp.pubY))
    rw [haddr]
  · rw [ht, hP]
  · refine
      ⟨{ public_key :=
           storeBytes (List.replicate SR_SECP256K1_PUBLIC_KEY_SIZE 0) 0
             ((genEntry id o kp).public_key.take (genEntry id o kp).public_key_len)
         public_key_len := (genEntry id o kp).public_key_len
         ethereum_address :=
           (genEntry id o kp).info.ethereum_address.take SR_ETHEREUM_ADDRESS_SIZE },
        ?_, ?_, ?_, ?_⟩
    · rw [ht, hP]
    · exact hrtake
    · exact haddr
    · show derive_ethereum_address o.digest
        ((storeBytes (List.replicate SR_SECP256K1_PUBLIC_KEY_SIZE 0) 0
          ((genEntry id o kp).public_key.take (genEntry id o kp).public_key_len)).take
          (genEntry id o kp).public_key_len) = _
      rw [hrtake]

/-- C7 witness: the round trip for identifier byte 1 on the empty store
with the mock provider. -/
theorem C7_roundtrip_witness :
    (cmd_generate_key (TA_CreateEntryPoint 0) (genInput [1]) mockGen).1 = TEE_SUCCESS ∧
    (cmd_get_public_key (cmd_generate_key (TA_CreateEntryPoint 0) (genInput [1]) mockGen).2.1
        (getPubInput [1])).1 = TEE_SUCCESS ∧
    (cmd_generate_key (TA_CreateEntryPoint 0) (genInput [1]) mockGen).2.2 =
      some (derive_ethereum_address mockGen.digest
        (List.replicate 32 1 ++ List.replicate 32 2)) := by
  have h := C7_roundtrip (TA_CreateEntryPoint 0) [1] mockGen
    { priv := List.replicate 32 7, pubX := List.replicate 32 1, pubY := List.replicate 32 2 }
    (by decide) (by decide) rfl rfl rfl (by decide) (by decide)
  exact ⟨h.1, h.2.2.1, h.2.1⟩


/-- C8 counterexample: lookup follows C-string comparison, not the
declared length.  On a store whose single record has logical identifier
bytes 97, 98: the caller buffer 97, 98, 99 with declared length 2 has
declared-length bytes equal to the stored identifier yet misses (sign
fails with SR_ERROR_KEY_NOT_FOUND), while the caller buffer 97, 98, 0
with declared length 3 has declared-length bytes different from the
stored identifier yet matches (get_public_key succeeds and a duplicate
generate is rejected). -/
theorem C8_counterexample :
    keyCore (c8State.g_key_storage.getD 0 zeroKeyEntry) = [97, 98] ∧
    ([97, 98, 99].take 2 = [97, 98] ∧
      find_key_index c8State [97, 98, 99] = -1 ∧
      (cmd_sign_message c8State
        { paramTypes := SIGN_MESSAGE_PTYPES
          keyIdMem := [97, 98, 99]
          keyIdLen := 2
          hashMem := List.replicate 32 0
          hashLen := 32
          outSize := SIZEOF_SR_SIGNATURE_RESULT } (mockSigner 3)).1 =
        SR_ERROR_KEY_NOT_FOUND) ∧
    ([97, 98, 0] ≠ ([97, 98] : List Nat) ∧
      find_key_index c8State [97, 98, 0] = Int.ofNat 0 ∧
      (cmd_get_public_key c8State
        { paramTypes := GET_PUBLIC_KEY_PTYPES
          keyIdMem := [97, 98, 0]
          keyIdLen := 3
          outSize := SIZEOF_SR_PUBLIC_KEY_RESULT }).1 = TEE_SUCCESS ∧
      (cmd_generate_key c8State
        { paramTypes := GENERATE_KEY_PTYPES
          keyIdMem := [97, 98, 0]
          keyIdLen := 3
          keyType := SR_KEY_TYPE_ECDSA_SECP256K1
          outSize := SR_ETHEREUM_ADDRESS_SIZE } mockGen).1 =
        SR_ERROR_KEY_ALREADY_EXISTS) :=
  ⟨by decide, ⟨by decide, by decide, by decide⟩, ⟨by decide, by decide, by decide, by decide⟩⟩

/-- C8 amended: on a well-formed store, for a caller buffer holding a
nonzero identifier of fewer than 64 bytes followed by a terminator,
lookup succeeds exactly when the identifier equals the logical identifier
of some live record, and a successful lookup lands on a slot whose
logical identifier is the caller identifier. -/
theorem C8_amended (s : SRState) (id rest : List Nat) (hWF : WFStore s)
    (hnz : ∀ b ∈ id, b ≠ 0) (hlen : id.length < SR_MAX_KEY_ID_SIZE) :
    (0 ≤ find_key_index s (id ++ 0 :: rest) ↔ id ∈ coresOf s) ∧
    (∀ j : Nat, find_key_index s (id ++ 0 :: rest) = Int.ofNat j →
      keyCore (s.g_key_storage.getD j zeroKeyEntry) = id) :=
  ⟨find_key_index_nonneg_iff s id rest hWF hnz hlen,
   fun j hj => (find_key_index_core s id rest j hWF hnz hlen hj).2⟩

/-- C8 amended witness: the characterization applied to the store whose
single record has logical identifier bytes 97, 98. -/
theorem C8_amended_witness :
    [97, 98] ∈ coresOf c8State ∧
    keyCore (c8State.g_key_storage.getD 0 zeroKeyEntry) = [97, 98] :=
  ⟨(C8_amended c8State [97, 98] [] (by decide) (by decide) (by decide)).1.mp (by decide),
   (C8_amended c8State [97, 98] [] (by decide) (by decide) (by decide)).2 0 (by decide)⟩

/-- C9 counterexample: a close-session event on the zero counter is
dropped, so after close then open the counter reads 1 while opens minus
closes floored at zero is 0; health_check reports 1. -/
theorem C9_counterexample :
    countOpens [SREvent.closeSession, SREvent.openSession] = 1 ∧
    countCloses [SREvent.closeSession, SREvent.openSession] = 1 ∧
    (runEvents (TA_CreateEntryPoint 0)
      [SREvent.closeSession, SREvent.openSession]).g_session_count = 1 ∧
    (cmd_health_check (runEvents (TA_CreateEntryPoint 0)
        [SREvent.closeSession, SREvent.openSession])
        { paramTypes := SINGLE_OUTPUT_PTYPES, outSize := SIZEOF_SR_HEALTH_RESULT } 0).2 =
      some
        { status := SR_SUCCESS
          active_sessions := 1
          total_operations := 0
          storage_usage := 0
          uptime := 0 } ∧
    (1 : Nat) ≠ 1 - 1 :=
  ⟨rfl, rfl, by decide, by decide, by decide⟩

/-- C9 amended: the counter health_check reports is the session fold of
the event sequence, where open increments modulo 2 to the 32 and close
decrements only a positive counter; when no prefix closes more sessions
than it opened and the opens stay below 2 to the 32, that fold equals
opens minus closes; and a close on the zero counter leaves it at zero,
so the counter never goes negative. -/
theorem C9_amended (now0 : Nat) (evs : List SREvent) :
    (∀ (inp : OutBufInput) (now1 : Nat) (r : sr_health_result_t),
      (cmd_health_check (runEvents (TA_CreateEntryPoint now0) evs) inp now1).2 = some r →
      r.active_sessions = sessionFold 0 evs) ∧
    ((∀ n, countCloses (evs.take n) ≤ countOpens (evs.take n)) →
      countOpens evs < UINT32_MOD →
      sessionFold 0 evs = countOpens evs - countCloses evs) ∧
    (∀ s : SRState, s.g_session_count = 0 →
      (TA_CloseSessionEntryPoint s).g_session_count = 0) := by
  refine ⟨?_, ?_, ?_⟩
  · intro inp now1 r hr
    have hs := cmd_health_check_sessions (runEvents (TA_CreateEntryPoint now0) evs)
      inp now1 r hr
    rw [hs, runEvents_sessionFold]
    rfl
  · intro hpre hbound
    have h := sessionFold_eq evs 0 (fun n => by have := hpre n; omega) (by omega)
    rw [h]
    omega
  · intro s hs
    show (TA_CloseSessionEntryPoint s).g_session_count = 0
    unfold TA_CloseSessionEntryPoint
    dsimp only
    rw [hs]
    decide

/-- C9 amended witness: after open, open, close the fold is 1 and equals
opens minus closes; health_check reports it; a close on the fresh state
keeps the counter at zero. -/
theorem C9_amended_witness :
    (1 : Nat) = sessionFold 0
      [SREvent.openSession, SREvent.openSession, SREvent.closeSession] ∧
    sessionFold 0 [SREvent.openSession, SREvent.openSession, SREvent.closeSession] =
      countOpens [SREvent.openSession, SREvent.openSession, SREvent.closeSession] -
        countCloses [SREvent.openSession, SREvent.openSession, SREvent.closeSession] ∧
    (TA_CloseSessionEntryPoint (TA_CreateEntryPoint 0)).g_session_count = 0 := by
  have h := C9_amended 0 [SREvent.openSession, SREvent.openSession, SREvent.closeSession]
  refine ⟨?_, ?_, h.2.2 (TA_CreateEntryPoint 0) rfl⟩
  · exact h.1 { paramTypes := SINGLE_OUTPUT_PTYPES, outSize := SIZEOF_SR_HEALTH_RESULT } 9
      { status := SR_SUCCESS
        active_sessions := 1
        total_operations := 0
        storage_usage := 0
        uptime := 9 } (by decide)
  · refine h.2.1 (fun n => ?_) (by decide)
    match n with
    | 0 => decide
    | 1 => decide
    | 2 => decide
    | 3 => decide
    | Nat.succ (Nat.succ (Nat.succ (Nat.succ m))) =>
        rw [List.take_of_length_le (by
          simp only [List.length_cons, List.length_nil]
          omega)]
        decide

/-- C10: every reachable store holds only ECDSA secp256k1 records, since
generation of any other type fails before insertion; hence on a
reachable store the Ed25519 and unsupported-type branches of
sign_message cannot produce their codes when the signing provider does
not return them, and a successful sign_message carries the ECDSA
signature written by the provider. -/
theorem C10_all_ecdsa (now0 : Nat) (evs : List SREvent) :
    allEcdsa (runEvents (TA_CreateEntryPoint now0) evs) ∧
    (∀ (inp : SignInput) (o : SignOracle), o.sigErr ≠ TEE_SUCCESS →
      (cmd_sign_message (runEvents (TA_CreateEntryPoint now0) evs) inp o).1 = TEE_SUCCESS →
      ∃ sg, o.sig = some sg ∧
        (cmd_sign_message (runEvents (TA_CreateEntryPoint now0) evs) inp o).2.2 =
          some
            { signature := storeBytes (List.replicate SR_SECP256K1_SIGNATURE_SIZE 0) 0 sg
              signature_len := sg.length
              recovery_id := 0 }) ∧
    (∀ (inp : SignInput) (o : SignOracle),
      o.sigErr ≠ TEE_ERROR_NOT_IMPLEMENTED → o.sigErr ≠ TEE_ERROR_NOT_SUPPORTED →
      (cmd_sign_message (runEvents (TA_CreateEntryPoint now0) evs) inp o).1 ≠
        TEE_ERROR_NOT_IMPLEMENTED ∧
      (cmd_sign_message (runEvents (TA_CreateEntryPoint now0) evs) inp o).1 ≠
        TEE_ERROR_NOT_SUPPORTED) := by
  have hall : allEcdsa (runEvents (TA_CreateEntryPoint now0) evs) :=
    allEcdsa_runEvents _ evs (allEcdsa_init now0)
  refine ⟨hall, ?_, ?_⟩
  · intro inp o herr hok
    rcases cmd_sign_message_ecdsa_only (runEvents (TA_CreateEntryPoint now0) evs) inp o hall
      with h | h | h | h | ⟨h1, h2⟩ | ⟨h1, h2⟩
    · rw [hok] at h
      exact absurd h (by decide)
    · rw [hok] at h
      exact absurd h (by decide)
    · rw [hok] at h
      exact absurd h (by decide)
    · rw [hok] at h
      exact absurd h (by decide)
    · rcases h2 with ⟨sg, hsg, hout⟩ | ⟨_, hes⟩
      · exact ⟨sg, hsg, hout⟩
      · exact absurd hes herr
    · rw [hok] at h2
      exact absurd h2.symm herr
  · intro inp o hni hns
    rcases cmd_sign_message_ecdsa_only (runEvents (TA_CreateEntryPoint now0) evs) inp o hall
      with h | h | h | h | ⟨h1, h2⟩ | ⟨h1, h2⟩
    · exact ⟨by rw [h]; decide, by rw [h]; decide⟩
    · exact ⟨by rw [h]; decide, by rw [h]; decide⟩
    · exact ⟨by rw [h]; decide, by rw [h]; decide⟩
    · exact ⟨by rw [h]; decide, by rw [h]; decide⟩
    · exact ⟨by rw [h1]; decide, by rw [h1]; decide⟩
    · exact ⟨by rw [h2]; exact hni, by rw [h2]; exact hns⟩

/-- C10 witness: the store reached by one generate holds only ECDSA
records; a sign on it with the mock provider succeeds with the provider
signature and returns neither TEE_ERROR_NOT_IMPLEMENTED nor
TEE_ERROR_NOT_SUPPORTED. -/
theorem C10_all_ecdsa_witness :
    allEcdsa (runEvents (TA_CreateEntryPoint 0)
      [SREvent.invokeGenerateKey (genInput [1]) mockGen]) ∧
    (cmd_sign_message (runEvents (TA_CreateEntryPoint 0)
        [SREvent.invokeGenerateKey (genInput [1]) mockGen])
        (signInput [1] (List.replicate 32 0)) (mockSigner 3)).2.2 =
      some
        { signature := storeBytes (List.replicate SR_SECP256K1_SIGNATURE_SIZE 0) 0
            (List.replicate 64 9)
          signature_len := 64
          recovery_id := 0 } ∧
    (cmd_sign_message (runEvents (TA_CreateEntryPoint 0)
        [SREvent.invokeGenerateKey (genInput [1]) mockGen])
        (signInput [1] (List.replicate 32 0)) (mockSigner 3)).1 ≠
      TEE_ERROR_NOT_IMPLEMENTED := by
  have h := C10_all_ecdsa 0 [SREvent.invokeGenerateKey (genInput [1]) mockGen]
  obtain ⟨sg, hsg, hout⟩ := h.2.1 (signInput [1] (List.replicate 32 0)) (mockSigner 3)
    (by decide) (by decide)
  have h2 : some (List.replicate 64 9) = some sg := hsg
  have hsg2 : sg = List.replicate 64 9 := (Option.some.inj h2).symm
  refine ⟨h.1, ?_, (h.2.2 (signInput [1] (List.replicate 32 0)) (mockSigner 3)
    (by decide) (by decide)).1⟩
  rw [hout, hsg2]
  rfl

end SuperRelay
